import Mathlib

/-!
Shallow embedding of `tinyphysicsengine.h` (version 0.1d, the `old/`
single-header engine) in Lean 4, used to settle the claims of the
natural-language specification against the code.

Modelling conventions:
* `TPE_Unit` (C `int32_t`) is modelled as `Int`.  Signed overflow is
  undefined behaviour in C, and the spec assumes non-overflowing ranges,
  so arithmetic is exact; the claims that depend on ranges carry explicit
  bounds as hypotheses.
* C integer division and remainder truncate towards zero; they are
  modelled by `Int.tdiv` and `Int.tmod` (never by Lean's `/` on `Int`,
  which is Euclidean).
* C functions that write through pointer out-parameters are modelled as
  functions that also take the previous value of the out-parameter and
  return its new value, because several of them assign only the `x`,`y`,`z`
  fields and leave the target's `w` field untouched.
* `uint8_t` bit masks (`antiVibration`) are modelled on `Nat`
  (`&0x7f` is `% 128`, the `0x80` bit is `/ 128`, values stay below 256).
-/

/-- `TPE_FRACTIONS_PER_UNIT`: number of fractions in a unit (1.0 ≙ 512). -/
def TPE_FRACTIONS_PER_UNIT : Int := 512

/-- `TPE_INFINITY` sentinel (maximum positive value of `int32_t`). -/
def TPE_INFINITY : Int := 2147483647

/-- `TPE_PI`: pi in `TPE_Unit`s. -/
def TPE_PI : Int := 1608

def TPE_SHAPE_POINT : Nat := 0
def TPE_SHAPE_SPHERE : Nat := 1
def TPE_SHAPE_CAPSULE : Nat := 2
def TPE_SHAPE_CUBOID : Nat := 3
def TPE_SHAPE_PLANE : Nat := 4
def TPE_SHAPE_CYLINDER : Nat := 5
def TPE_SHAPE_TRIMESH : Nat := 6

def TPE_ANTI_VIBRATION_MAX_FRAMES : Nat := 100
def TPE_ANTI_VIBRATION_INCREMENT : Nat := 20
def TPE_ANTI_VIBRATION_VELOCITY_BREAK : Int := 60

/-- `TPE_wrap(value,mod)`: C `value >= 0 ? (value % mod) : (mod + (value % mod) - 1)`. -/
def TPE_wrap (value mod : Int) : Int :=
  if value ≥ 0 then Int.tmod value mod else mod + Int.tmod value mod - 1

/-- `TPE_clamp(v,v1,v2)`. -/
def TPE_clamp (v v1 v2 : Int) : Int :=
  if v ≥ v1 then (if v ≤ v2 then v else v2) else v1

/-- `TPE_nonZero(x)`: C `x + (x == 0)`. -/
def TPE_nonZero (x : Int) : Int := x + (if x = 0 then 1 else 0)

/-- `TPE_abs(x)`. -/
def TPE_abs (x : Int) : Int := if x ≥ 0 then x else (-1) * x

/-- `TPE_sign(x)`. -/
def TPE_sign (x : Int) : Int := if x > 0 then 1 else (if x < 0 then -1 else 0)

/-- `TPE_timesAntiZero(a,b)`: multiplies with normalization so that the
result is 0 only if one of the factors is 0. -/
def TPE_timesAntiZero (a b : Int) : Int :=
  let result := a * b
  if result ≥ TPE_FRACTIONS_PER_UNIT then Int.tdiv result TPE_FRACTIONS_PER_UNIT
  else (if result ≠ 0 then 1 else 0)

/-- First loop of `TPE_sqrt`, `while (b > a) b >>= 2;` on `uint32_t`, as a
structural recursion on an iteration bound.  `b` is divided by 4 each pass,
so from any `uint32` value the loop runs at most 16 times and the bound is
never exhausted (`TPE_sqrtShrink` passes 32). -/
def TPE_sqrtShrinkGo : Nat → Nat → Nat → Nat
  | _, b, 0 => b
  | a, b, fuel + 1 => if b > a then TPE_sqrtShrinkGo a (b / 4) fuel else b

/-- First loop of `TPE_sqrt` (`while (b > a) b >>= 2;`). -/
def TPE_sqrtShrink (a b : Nat) : Nat := TPE_sqrtShrinkGo a b 32

/-- Second loop of `TPE_sqrt`,
`while (b != 0) { if (a >= result + b) { a -= result + b; result += 2b; } b >>= 2; result >>= 1; }`,
as a structural recursion on an iteration bound (at most 16 passes from any
`uint32` value of `b`, never exhausted with the bound 32). -/
def TPE_sqrtLoopGo : Nat → Nat → Nat → Nat → Nat
  | _, result, _, 0 => result
  | a, result, b, fuel + 1 =>
    if b = 0 then result
    else if a ≥ result + b then
      TPE_sqrtLoopGo (a - (result + b)) ((result + 2 * b) / 2) (b / 4) fuel
    else
      TPE_sqrtLoopGo a (result / 2) (b / 4) fuel

/-- Second loop of `TPE_sqrt`. -/
def TPE_sqrtLoop (a result b : Nat) : Nat := TPE_sqrtLoopGo a result b 32

/-- The two loops of `TPE_sqrt` on the non-negative magnitude
(`result = 0; a = value; b = 1u << 30`). -/
def TPE_sqrtNat (a : Nat) : Nat :=
  TPE_sqrtLoop a 0 (TPE_sqrtShrink a (2 ^ 30))

/-- `TPE_sqrt(value)`: integer square root; negative input gives the
negated square root of the magnitude. -/
def TPE_sqrt (value : Int) : Int :=
  if value < 0 then (-1) * (TPE_sqrtNat (-value).toNat : Int)
  else (TPE_sqrtNat value.toNat : Int)

def TPE_SIN_TABLE_LENGTH : Int := 128

/-- The 128 numerators `n` of the `TPE_sinTable` entries `(n*TPE_FRACTIONS_PER_UNIT)/511`. -/
def TPE_sinTableNumerators : List Int :=
  [0, 6, 12, 18, 25, 31, 37, 43, 50, 56, 62, 68, 74, 81, 87, 93,
   99, 105, 111, 118, 124, 130, 136, 142, 148, 154, 160, 166, 172, 178, 183, 189,
   195, 201, 207, 212, 218, 224, 229, 235, 240, 246, 251, 257, 262, 268, 273, 278,
   283, 289, 294, 299, 304, 309, 314, 319, 324, 328, 333, 338, 343, 347, 352, 356,
   361, 365, 370, 374, 378, 382, 386, 391, 395, 398, 402, 406, 410, 414, 417, 421,
   424, 428, 431, 435, 438, 441, 444, 447, 450, 453, 456, 459, 461, 464, 467, 469,
   472, 474, 476, 478, 481, 483, 485, 487, 488, 490, 492, 494, 495, 497, 498, 499,
   501, 502, 503, 504, 505, 506, 507, 507, 508, 509, 509, 510, 510, 510, 510, 510]

/-- `TPE_sinTable`: quarter-wave sine table, entries `(n*TPE_FRACTIONS_PER_UNIT)/511`. -/
def TPE_sinTable : List Int :=
  TPE_sinTableNumerators.map (fun n => Int.tdiv (n * TPE_FRACTIONS_PER_UNIT) 511)

/-- `TPE_SIN_TABLE_UNIT_STEP = TPE_FRACTIONS_PER_UNIT / (TPE_SIN_TABLE_LENGTH * 4)`. -/
def TPE_SIN_TABLE_UNIT_STEP : Int :=
  Int.tdiv TPE_FRACTIONS_PER_UNIT (TPE_SIN_TABLE_LENGTH * 4)

/-- Index into `TPE_sinTable` (C array indexing; indices used are in range). -/
def TPE_sinTableAt (i : Int) : Int := TPE_sinTable.getD i.toNat 0

/-- `TPE_sin(x)`: table lookup with quadrant folding. -/
def TPE_sin (x0 : Int) : Int :=
  let x := TPE_wrap (Int.tdiv x0 TPE_SIN_TABLE_UNIT_STEP) (TPE_SIN_TABLE_LENGTH * 4)
  if x < TPE_SIN_TABLE_LENGTH then
    TPE_sinTableAt x
  else if x < TPE_SIN_TABLE_LENGTH * 2 then
    TPE_sinTableAt (TPE_SIN_TABLE_LENGTH * 2 - x - 1)
  else if x < TPE_SIN_TABLE_LENGTH * 3 then
    (-1) * TPE_sinTableAt (x - TPE_SIN_TABLE_LENGTH * 2)
  else
    (-1) * TPE_sinTableAt (TPE_SIN_TABLE_LENGTH - (x - TPE_SIN_TABLE_LENGTH * 3) - 1)

/-- `TPE_cos(x) = TPE_sin(x + TPE_FRACTIONS_PER_UNIT / 4)`. -/
def TPE_cos (x : Int) : Int := TPE_sin (x + Int.tdiv TPE_FRACTIONS_PER_UNIT 4)

/-- `TPE_Vec4`: the single vector type (also used for 3-vectors and quaternions). -/
structure TPE_Vec4 where
  x : Int
  y : Int
  z : Int
  w : Int
deriving Repr, DecidableEq

/-- `TPE_vec4(x,y,z,w)` constructor. -/
def TPE_vec4 (x y z w : Int) : TPE_Vec4 := ⟨x, y, z, w⟩

/-- `TPE_vec3Plus(a,b)`: returns `a` with `x`,`y`,`z` summed (`a.w` kept). -/
def TPE_vec3Plus (a b : TPE_Vec4) : TPE_Vec4 :=
  { a with x := a.x + b.x, y := a.y + b.y, z := a.z + b.z }

/-- `TPE_vec3Minus(a,b)`: returns `a` with `x`,`y`,`z` subtracted (`a.w` kept). -/
def TPE_vec3Minus (a b : TPE_Vec4) : TPE_Vec4 :=
  { a with x := a.x - b.x, y := a.y - b.y, z := a.z - b.z }

/-- `TPE_vec3Times(a,f)`: fixed-point scale of `x`,`y`,`z` (`a.w` kept). -/
def TPE_vec3Times (a : TPE_Vec4) (f : Int) : TPE_Vec4 :=
  { a with
    x := Int.tdiv (a.x * f) TPE_FRACTIONS_PER_UNIT,
    y := Int.tdiv (a.y * f) TPE_FRACTIONS_PER_UNIT,
    z := Int.tdiv (a.z * f) TPE_FRACTIONS_PER_UNIT }

/-- `TPE_vec3Add(a,b,result)`: writes `x`,`y`,`z` of the out-parameter,
whose previous value is the third argument (its `w` is preserved). -/
def TPE_vec3Add (a b result : TPE_Vec4) : TPE_Vec4 :=
  { result with x := a.x + b.x, y := a.y + b.y, z := a.z + b.z }

/-- `TPE_vec3Substract(a,b,result)` (out-parameter convention as in `TPE_vec3Add`). -/
def TPE_vec3Substract (a b result : TPE_Vec4) : TPE_Vec4 :=
  { result with x := a.x - b.x, y := a.y - b.y, z := a.z - b.z }

/-- `TPE_vec3Average(a,b,result)` (out-parameter convention as in `TPE_vec3Add`). -/
def TPE_vec3Average (a b result : TPE_Vec4) : TPE_Vec4 :=
  { result with
    x := Int.tdiv (a.x + b.x) 2,
    y := Int.tdiv (a.y + b.y) 2,
    z := Int.tdiv (a.z + b.z) 2 }

/-- `TPE_vec3Multiply(v,f,result)` (out-parameter convention as in `TPE_vec3Add`). -/
def TPE_vec3Multiply (v : TPE_Vec4) (f : Int) (result : TPE_Vec4) : TPE_Vec4 :=
  { result with
    x := Int.tdiv (v.x * f) TPE_FRACTIONS_PER_UNIT,
    y := Int.tdiv (v.y * f) TPE_FRACTIONS_PER_UNIT,
    z := Int.tdiv (v.z * f) TPE_FRACTIONS_PER_UNIT }

/-- `TPE_vec3MultiplyPlain(v,f,result)` (out-parameter convention as in `TPE_vec3Add`). -/
def TPE_vec3MultiplyPlain (v : TPE_Vec4) (f : Int) (result : TPE_Vec4) : TPE_Vec4 :=
  { result with x := v.x * f, y := v.y * f, z := v.z * f }

/-- `TPE_vec3Len(v)`. -/
def TPE_vec3Len (v : TPE_Vec4) : Int :=
  TPE_sqrt (v.x * v.x + v.y * v.y + v.z * v.z)

/-- `TPE_vec4Len(v)`. -/
def TPE_vec4Len (v : TPE_Vec4) : Int :=
  TPE_sqrt (v.x * v.x + v.y * v.y + v.z * v.z + v.w * v.w)

/-- `TPE_vec3Dist(a,b)`. -/
def TPE_vec3Dist (a b : TPE_Vec4) : Int := TPE_vec3Len (TPE_vec3Minus a b)

/-- `TPE_vec3DotProduct(v1,v2)`: normalized dot product. -/
def TPE_vec3DotProduct (v1 v2 : TPE_Vec4) : Int :=
  Int.tdiv (v1.x * v2.x + v1.y * v2.y + v1.z * v2.z) TPE_FRACTIONS_PER_UNIT

/-- `TPE_vec3DotProductPlain(v1,v2)`. -/
def TPE_vec3DotProductPlain (v1 v2 : TPE_Vec4) : Int :=
  v1.x * v2.x + v1.y * v2.y + v1.z * v2.z

/-- `TPE_vec3Normalize(v)`: in place; if the length is 0 only `x` is set to
`TPE_FRACTIONS_PER_UNIT` (`y`,`z`,`w` keep their values), otherwise
`x`,`y`,`z` are scaled (`w` kept). -/
def TPE_vec3Normalize (v : TPE_Vec4) : TPE_Vec4 :=
  let l := TPE_vec3Len v
  if l = 0 then { v with x := TPE_FRACTIONS_PER_UNIT }
  else
    { v with
      x := Int.tdiv (v.x * TPE_FRACTIONS_PER_UNIT) l,
      y := Int.tdiv (v.y * TPE_FRACTIONS_PER_UNIT) l,
      z := Int.tdiv (v.z * TPE_FRACTIONS_PER_UNIT) l }

/-- `TPE_vec4Normalize(v)`: in place, as `TPE_vec3Normalize` but with `w`. -/
def TPE_vec4Normalize (v : TPE_Vec4) : TPE_Vec4 :=
  let l := TPE_vec4Len v
  if l = 0 then { v with x := TPE_FRACTIONS_PER_UNIT }
  else
    { v with
      x := Int.tdiv (v.x * TPE_FRACTIONS_PER_UNIT) l,
      y := Int.tdiv (v.y * TPE_FRACTIONS_PER_UNIT) l,
      z := Int.tdiv (v.z * TPE_FRACTIONS_PER_UNIT) l,
      w := Int.tdiv (v.w * TPE_FRACTIONS_PER_UNIT) l }

/-- `TPE_vec3Normalized(v)`. -/
def TPE_vec3Normalized (v : TPE_Vec4) : TPE_Vec4 := TPE_vec3Normalize v

/-- `TPE_vec3Project(v,base,result)` (out-parameter convention as in `TPE_vec3Add`). -/
def TPE_vec3Project (v base result : TPE_Vec4) : TPE_Vec4 :=
  let p := TPE_vec3DotProduct v base
  { result with
    x := Int.tdiv (p * base.x) TPE_FRACTIONS_PER_UNIT,
    y := Int.tdiv (p * base.y) TPE_FRACTIONS_PER_UNIT,
    z := Int.tdiv (p * base.z) TPE_FRACTIONS_PER_UNIT }

/-- `TPE_vec3Projected(v,base)`: projection into a local whose `w` the C code
leaves uninitialized (never read by callers; modelled as 0). -/
def TPE_vec3Projected (v base : TPE_Vec4) : TPE_Vec4 :=
  TPE_vec3Project v base (TPE_vec4 0 0 0 0)

/-- `TPE_vec3CrossProduct(a,b,result)`: writes `x`,`y`,`z` computed from a
local whose `w` the C code leaves uninitialized; `*result = r` copies that
`w` too (never read by callers; modelled as 0). -/
def TPE_vec3CrossProduct (a b : TPE_Vec4) : TPE_Vec4 :=
  { x := Int.tdiv (a.y * b.z - a.z * b.y) TPE_FRACTIONS_PER_UNIT,
    y := Int.tdiv (a.z * b.x - a.x * b.z) TPE_FRACTIONS_PER_UNIT,
    z := Int.tdiv (a.x * b.y - a.y * b.x) TPE_FRACTIONS_PER_UNIT,
    w := 0 }

/-- `TPE_vec3Cross(a,b)`. -/
def TPE_vec3Cross (a b : TPE_Vec4) : TPE_Vec4 := TPE_vec3CrossProduct a b

/-- `TPE_lineSegmentClosestPoint(a,b,p)`. -/
def TPE_lineSegmentClosestPoint (a b p : TPE_Vec4) : TPE_Vec4 :=
  let ab := TPE_vec3Minus b a
  let t0 := Int.tdiv (TPE_vec3DotProduct ab (TPE_vec3Minus p a) * TPE_FRACTIONS_PER_UNIT)
    (TPE_nonZero (TPE_vec3DotProduct ab ab))
  let t := if t0 < 0 then 0
    else if t0 > TPE_FRACTIONS_PER_UNIT then TPE_FRACTIONS_PER_UNIT else t0
  TPE_vec3Plus a (TPE_vec3Multiply ab t ab)

/-- `TPE_quaternionInit`: identity rotation quaternion `(0,0,0,F)`. -/
def TPE_quaternionInit : TPE_Vec4 := ⟨0, 0, 0, TPE_FRACTIONS_PER_UNIT⟩

/-- `TPE_quaternionMultiply(a,b,result)`: Hamilton product with fixed-point
normalization (all four fields of the result are written). -/
def TPE_quaternionMultiply (a b : TPE_Vec4) : TPE_Vec4 :=
  { x := Int.tdiv (a.w * b.x + a.x * b.w + a.y * b.z - a.z * b.y) TPE_FRACTIONS_PER_UNIT,
    y := Int.tdiv (a.w * b.y - a.x * b.z + a.y * b.w + a.z * b.x) TPE_FRACTIONS_PER_UNIT,
    z := Int.tdiv (a.w * b.z + a.x * b.y - a.y * b.x + a.z * b.w) TPE_FRACTIONS_PER_UNIT,
    w := Int.tdiv (a.w * b.w - a.x * b.x - a.y * b.y - a.z * b.z) TPE_FRACTIONS_PER_UNIT }

/-- `TPE_rotationToQuaternion(axis,angle,quaternion)`: normalize the axis,
halve the angle, build `(sin*axis/F, cos)` (all four fields written). -/
def TPE_rotationToQuaternion (axis0 : TPE_Vec4) (angle0 : Int) : TPE_Vec4 :=
  let axis := TPE_vec3Normalize axis0
  let angle := Int.tdiv angle0 2
  let s := TPE_sin angle
  { x := Int.tdiv (s * axis.x) TPE_FRACTIONS_PER_UNIT,
    y := Int.tdiv (s * axis.y) TPE_FRACTIONS_PER_UNIT,
    z := Int.tdiv (s * axis.z) TPE_FRACTIONS_PER_UNIT,
    w := TPE_cos angle }

/-- The 4x4 matrix produced by `TPE_quaternionToRotationMatrix`; field `mCR`
is the C `matrix[C][R]` ("[column][row]", the format of `S3L_Mat4`). -/
structure TPE_Mat4 where
  (m00 m01 m02 m03 : Int)
  (m10 m11 m12 m13 : Int)
  (m20 m21 m22 m23 : Int)
  (m30 m31 m32 m33 : Int)
deriving Repr, DecidableEq

/-- `TPE_quaternionToRotationMatrix(quaternion,matrix)`. -/
def TPE_quaternionToRotationMatrix (q : TPE_Vec4) : TPE_Mat4 :=
  let one := TPE_FRACTIONS_PER_UNIT
  let u2x2 := Int.tdiv (2 * q.x * q.x) TPE_FRACTIONS_PER_UNIT
  let u2y2 := Int.tdiv (2 * q.y * q.y) TPE_FRACTIONS_PER_UNIT
  let u2z2 := Int.tdiv (2 * q.z * q.z) TPE_FRACTIONS_PER_UNIT
  let u2xy := Int.tdiv (2 * q.x * q.y) TPE_FRACTIONS_PER_UNIT
  let u2xw := Int.tdiv (2 * q.x * q.w) TPE_FRACTIONS_PER_UNIT
  let u2zw := Int.tdiv (2 * q.z * q.w) TPE_FRACTIONS_PER_UNIT
  let u2xz := Int.tdiv (2 * q.x * q.z) TPE_FRACTIONS_PER_UNIT
  let u2yw := Int.tdiv (2 * q.y * q.w) TPE_FRACTIONS_PER_UNIT
  let u2yz := Int.tdiv (2 * q.y * q.z) TPE_FRACTIONS_PER_UNIT
  { m00 := one - u2y2 - u2z2, m10 := u2xy - u2zw, m20 := u2xz + u2yw, m30 := 0,
    m01 := u2xy + u2zw, m11 := one - u2x2 - u2z2, m21 := u2yz - u2xw, m31 := 0,
    m02 := u2xz - u2yw, m12 := u2yz + u2xw, m22 := one - u2x2 - u2y2, m32 := 0,
    m03 := 0, m13 := 0, m23 := 0, m33 := one }

/-- `TPE_rotatePoint(point,quaternion)`: multiplies the point by the matrix
derived from the quaternion, reading `m[0][0..2]`, `m[1][0..2]`, `m[2][0..2]`
(the point's `w` is not written). -/
def TPE_rotatePoint (point : TPE_Vec4) (quaternion : TPE_Vec4) : TPE_Vec4 :=
  let m := TPE_quaternionToRotationMatrix quaternion
  let p := point
  { point with
    x := Int.tdiv (p.x * m.m00 + p.y * m.m01 + p.z * m.m02) TPE_FRACTIONS_PER_UNIT,
    y := Int.tdiv (p.x * m.m10 + p.y * m.m11 + p.z * m.m12) TPE_FRACTIONS_PER_UNIT,
    z := Int.tdiv (p.x * m.m20 + p.y * m.m21 + p.z * m.m22) TPE_FRACTIONS_PER_UNIT }

/-- `TPE_createVecFromTo(pointFrom,pointTo,size)`. -/
def TPE_createVecFromTo (pointFrom pointTo : TPE_Vec4) (size : Int) : TPE_Vec4 :=
  TPE_vec3Times (TPE_vec3Normalized (TPE_vec3Minus pointTo pointFrom)) size

/-- `TPE_linearVelocityToAngular(velocity,distance)`. -/
def TPE_linearVelocityToAngular (velocity distance : Int) : Int :=
  let circumfence := Int.tdiv (2 * TPE_PI * distance) TPE_FRACTIONS_PER_UNIT
  Int.tdiv (velocity * TPE_FRACTIONS_PER_UNIT) circumfence

/-- `TPE_angularVelocityToLinear(velocity,distance)`. -/
def TPE_angularVelocityToLinear (velocity distance : Int) : Int :=
  let circumfence := Int.tdiv (2 * TPE_PI * distance) TPE_FRACTIONS_PER_UNIT
  Int.tdiv (velocity * circumfence) TPE_FRACTIONS_PER_UNIT

/-- `TPE_RotationState`. -/
structure TPE_RotationState where
  originalOrientation : TPE_Vec4
  axisVelocity : TPE_Vec4
  currentAngle : Int
deriving Repr, DecidableEq

/-- `TPE_Body`.  `shapeParams[0..2]` are three separate fields (the C code
indexes the array only by constants); `shapeParamPointers` (used only by the
unimplemented trimesh shape) is omitted. -/
structure TPE_Body where
  shape : Nat
  shapeParams0 : Int
  shapeParams1 : Int
  shapeParams2 : Int
  flags : Nat
  mass : Int
  position : TPE_Vec4
  velocity : TPE_Vec4
  rotation : TPE_RotationState
  boundingSphereRadius : Int
  antiVibration : Nat
deriving Repr, DecidableEq

/-- A `TPE_Body` local variable before any field is written (C leaves it
uninitialized; every field that is later read is first written by
`TPE_bodyInit` or by explicit assignment at the use sites, so zeros here
are never observed). -/
def TPE_emptyBody : TPE_Body :=
  { shape := 0, shapeParams0 := 0, shapeParams1 := 0, shapeParams2 := 0,
    flags := 0, mass := 0,
    position := TPE_vec4 0 0 0 0, velocity := TPE_vec4 0 0 0 0,
    rotation := { originalOrientation := TPE_vec4 0 0 0 0,
                  axisVelocity := TPE_vec4 0 0 0 0, currentAngle := 0 },
    boundingSphereRadius := 0, antiVibration := 0 }

/-- `TPE_bodyInit(body)`: zero position and velocity, identity orientation,
axis `(F,0,0)` with zero angular velocity, mass `F`, zero bounding radius and
anti-vibration counter (`shape`, `shapeParams`, `flags` are not written). -/
def TPE_bodyInit (body : TPE_Body) : TPE_Body :=
  { body with
    position := TPE_vec4 0 0 0 0,
    velocity := TPE_vec4 0 0 0 0,
    rotation := { originalOrientation := TPE_quaternionInit,
                  axisVelocity := TPE_vec4 TPE_FRACTIONS_PER_UNIT 0 0 0,
                  currentAngle := 0 },
    mass := TPE_FRACTIONS_PER_UNIT,
    boundingSphereRadius := 0,
    antiVibration := 0 }

/-- `TPE_bodyGetOrientation(body)`. -/
def TPE_bodyGetOrientation (body : TPE_Body) : TPE_Vec4 :=
  TPE_vec4Normalize (TPE_quaternionMultiply body.rotation.originalOrientation
    (TPE_rotationToQuaternion body.rotation.axisVelocity body.rotation.currentAngle))

/-- `TPE_bodyGetMaxExtent(body)`. -/
def TPE_bodyGetMaxExtent (body : TPE_Body) : Int :=
  if body.shape = TPE_SHAPE_SPHERE then body.shapeParams0
  else if body.shape = TPE_SHAPE_CUBOID then
    TPE_vec3Len (TPE_vec4 (Int.tdiv body.shapeParams0 2)
      (Int.tdiv body.shapeParams1 2) (Int.tdiv body.shapeParams2 2) 0)
  else 0

/-- `TPE_bodyStep(body)`: integrate position and rotation angle unless the
body is static, then tick the anti-vibration counter down. -/
def TPE_bodyStep (body : TPE_Body) : TPE_Body :=
  let body1 :=
    if body.mass ≠ TPE_INFINITY then
      { body with
        position := TPE_vec3Add body.position body.velocity body.position,
        rotation := { body.rotation with
          currentAngle := body.rotation.currentAngle + body.rotation.axisVelocity.w } }
    else body
  if body1.antiVibration % 128 > 0 then
    -- (av & 0x80) | ((av & 0x7f) - 1); then a pure 0x80 result is cleared
    let av := 128 * (body1.antiVibration / 128) + (body1.antiVibration % 128 - 1)
    { body1 with antiVibration := if av = 128 then 0 else av }
  else body1

/-- `TPE_bodySetRotation(body,axis,velocity)`. -/
def TPE_bodySetRotation (body0 : TPE_Body) (axis0 : TPE_Vec4) (velocity0 : Int) : TPE_Body :=
  let body :=
    if body0.rotation.currentAngle ≠ 0 then
      { body0 with rotation :=
        { body0.rotation with originalOrientation := TPE_bodyGetOrientation body0 } }
    else body0
  let axis1 := if velocity0 < 0 then
      { axis0 with x := axis0.x * (-1), y := axis0.y * (-1), z := axis0.z * (-1) }
    else axis0
  let velocity := if velocity0 < 0 then velocity0 * (-1) else velocity0
  let axis := TPE_vec3Normalize axis1
  -- antiVibration = (antiVibration & 0x7f) | ((dot(axis,old axis) <= 0) << 7)
  let bit : Nat :=
    if TPE_vec3DotProductPlain axis body.rotation.axisVelocity ≤ 0 then 128 else 0
  { body with
    antiVibration := body.antiVibration % 128 + bit,
    rotation := { body.rotation with
      axisVelocity := { axis with w := velocity },
      currentAngle := 0 } }

/-- `TPE_bodyAddRotation(body,axis,velocity)`. -/
def TPE_bodyAddRotation (body : TPE_Body) (axis0 : TPE_Vec4) (velocity : Int) : TPE_Body :=
  if velocity = 0 then body
  else
    let av := body.rotation.axisVelocity
    let av1 := { av with
      x := Int.tdiv (av.x * av.w) TPE_FRACTIONS_PER_UNIT,
      y := Int.tdiv (av.y * av.w) TPE_FRACTIONS_PER_UNIT,
      z := Int.tdiv (av.z * av.w) TPE_FRACTIONS_PER_UNIT }
    let body1 := { body with rotation := { body.rotation with axisVelocity := av1 } }
    let axis1 := TPE_vec3Normalize axis0
    let axis2 := { axis1 with
      x := Int.tdiv (axis1.x * velocity) TPE_FRACTIONS_PER_UNIT,
      y := Int.tdiv (axis1.y * velocity) TPE_FRACTIONS_PER_UNIT,
      z := Int.tdiv (axis1.z * velocity) TPE_FRACTIONS_PER_UNIT }
    let axis3 := TPE_vec3Add body1.rotation.axisVelocity axis2 axis2
    let axis4 := { axis3 with w := TPE_vec3Len axis3 }
    TPE_bodySetRotation body1 axis4 axis4.w

/-- `TPE_bodyApplyImpulse(body,point,impulse)`. -/
def TPE_bodyApplyImpulse (body : TPE_Body) (point0 impulse0 : TPE_Vec4) : TPE_Body :=
  let pointDistance := TPE_vec3Len point0
  if pointDistance ≠ 0 then
    let impulse1 := { impulse0 with
      x := Int.tdiv (impulse0.x * TPE_FRACTIONS_PER_UNIT) body.mass,
      y := Int.tdiv (impulse0.y * TPE_FRACTIONS_PER_UNIT) body.mass,
      z := Int.tdiv (impulse0.z * TPE_FRACTIONS_PER_UNIT) body.mass }
    let body1 := { body with velocity := TPE_vec3Add body.velocity impulse1 body.velocity }
    let point := { point0 with
      x := Int.tdiv (point0.x * TPE_FRACTIONS_PER_UNIT) pointDistance,
      y := Int.tdiv (point0.y * TPE_FRACTIONS_PER_UNIT) pointDistance,
      z := Int.tdiv (point0.z * TPE_FRACTIONS_PER_UNIT) pointDistance }
    let impulse2 := TPE_vec3Cross impulse1 point
    let r0 := TPE_bodyGetMaxExtent body1
    let r := TPE_nonZero (Int.tdiv (2 * r0 * r0) TPE_FRACTIONS_PER_UNIT)
    let tmp := impulse2
    let impulse3 := { impulse2 with
      x := Int.tdiv (impulse2.x * 5 * TPE_FRACTIONS_PER_UNIT) r,
      y := Int.tdiv (impulse2.y * 5 * TPE_FRACTIONS_PER_UNIT) r,
      z := Int.tdiv (impulse2.z * 5 * TPE_FRACTIONS_PER_UNIT) r }
    let impulse4 :=
      if impulse3.x = 0 ∧ impulse3.y = 0 ∧ impulse3.z = 0 ∧
          (tmp.x ≠ 0 ∨ tmp.y ≠ 0 ∨ tmp.z ≠ 0) then
        { impulse3 with x := TPE_sign tmp.x, y := TPE_sign tmp.y, z := TPE_sign tmp.z }
      else impulse3
    TPE_bodyAddRotation body1 impulse4 (TPE_vec3Len impulse4)
  else body

/-- `TPE_bodyGetPointVelocity(body,point)`. -/
def TPE_bodyGetPointVelocity (body : TPE_Body) (point : TPE_Vec4) : TPE_Vec4 :=
  let result := body.velocity
  let normal0 := TPE_vec3Cross point (TPE_vec3Minus point body.rotation.axisVelocity)
  let normal1 := TPE_vec3MultiplyPlain normal0 (-1) normal0
  let dist := TPE_vec3Len normal1
  let velocity := TPE_angularVelocityToLinear body.rotation.axisVelocity.w dist
  let normal := TPE_vec3Normalize normal1
  TPE_vec3Plus result (TPE_vec3Times normal velocity)

/-- `TPE_bodyMultiplyKineticEnergy(body,f)`. -/
def TPE_bodyMultiplyKineticEnergy (body : TPE_Body) (f0 : Int) : TPE_Body :=
  if body.mass = TPE_INFINITY then body
  else
    let vel1 := TPE_vec3Multiply body.velocity f0 body.velocity
    let f := TPE_sqrt (f0 * TPE_FRACTIONS_PER_UNIT)
    let vel2 := TPE_vec3Multiply vel1 f vel1
    let sign := TPE_sign body.rotation.axisVelocity.w
    let w1 := Int.tdiv (body.rotation.axisVelocity.w * f) TPE_FRACTIONS_PER_UNIT
    let w2 := if f ≠ 0 ∧ sign ≠ 0 ∧ w1 = 0 then sign else w1
    { body with
      velocity := vel2,
      rotation := { body.rotation with
        axisVelocity := { body.rotation.axisVelocity with w := w2 } } }

/-- `TPE_bodyGetKineticEnergy(body)`. -/
def TPE_bodyGetKineticEnergy (body : TPE_Body) : Int :=
  let v0 := TPE_vec3Len body.velocity
  let v1 := v0 * v0
  let v2 := if v1 = 0 ∨ v1 ≥ TPE_FRACTIONS_PER_UNIT then Int.tdiv v1 TPE_FRACTIONS_PER_UNIT else 1
  let v := Int.tdiv (body.mass * v2) (2 * TPE_FRACTIONS_PER_UNIT)
  let r0 := TPE_bodyGetMaxExtent body
  let r1 := Int.tdiv
    (TPE_timesAntiZero (TPE_timesAntiZero r0 r0)
        (TPE_timesAntiZero body.rotation.axisVelocity.w body.rotation.axisVelocity.w)
      * body.mass)
    (5 * TPE_FRACTIONS_PER_UNIT)
  let r := if r1 = 0 ∧ body.rotation.axisVelocity.w ≠ 0 then 1 else r1
  v + r

/-- `TPE_correctEnergies(body1,body2,previousEnergy,restitution)`. -/
def TPE_correctEnergies (body1 body2 : TPE_Body) (previousEnergy restitution0 : Int) :
    TPE_Body × TPE_Body :=
  if previousEnergy = 0 then (body1, body2)
  else
    let r : Int := if restitution0 > TPE_FRACTIONS_PER_UNIT then 1
      else if restitution0 < TPE_FRACTIONS_PER_UNIT then -1 else 0
    let newEnergy := TPE_bodyGetKineticEnergy body1 + TPE_bodyGetKineticEnergy body2
    let f0 := Int.tdiv (newEnergy * TPE_FRACTIONS_PER_UNIT) previousEnergy
    let restitution := if f0 ≠ 0 then Int.tdiv (restitution0 * TPE_FRACTIONS_PER_UNIT) f0
      else TPE_FRACTIONS_PER_UNIT
    if restitution > TPE_FRACTIONS_PER_UNIT + 10 ∨
        restitution < TPE_FRACTIONS_PER_UNIT - 10 then
      let f := Int.tdiv (previousEnergy * restitution) TPE_FRACTIONS_PER_UNIT
      if (r < 0 ∧ f < previousEnergy) ∨ (r = 0 ∧ f = previousEnergy) ∨
          (r > 0 ∧ f > previousEnergy) then
        (TPE_bodyMultiplyKineticEnergy body1 restitution,
         TPE_bodyMultiplyKineticEnergy body2 restitution)
      else (body1, body2)
    else (body1, body2)

/-- `_TPE_bodyUpdateAntivibration(body)`: returns the updated body and the
C return value (`tmp <= TPE_ANTI_VIBRATION_MAX_FRAMES`, 0 when vibrating). -/
def TPE_bodyUpdateAntivibration (body : TPE_Body) : TPE_Body × Bool :=
  let tmp := body.antiVibration % 128
  if 128 ≤ body.antiVibration then      -- antiVibration & 0x80 (values stay < 256)
    let tmp2 := if tmp < 127 - TPE_ANTI_VIBRATION_INCREMENT
      then tmp + TPE_ANTI_VIBRATION_INCREMENT else 127
    ({ body with antiVibration := 128 + tmp2 }, tmp2 ≤ TPE_ANTI_VIBRATION_MAX_FRAMES)
  else
    (body, tmp ≤ TPE_ANTI_VIBRATION_MAX_FRAMES)

/-- Main path of `TPE_resolveCollision` (after the static-body swap at the
top of the C function; `body2` here is never static).  Returns the updated
`(body1, body2)`. -/
def TPE_resolveCollisionMain (b1_0 b2_0 : TPE_Body) (collisionPoint collisionNormal : TPE_Vec4)
    (collisionDepth energyMultiplier : Int) : TPE_Body × TPE_Body :=
  let p1 := TPE_vec3Minus collisionPoint b1_0.position
  let p2 := TPE_vec3Minus collisionPoint b2_0.position
  -- separate the bodies (the local collisionPoint is reused for the scaled normal):
  let cpS := collisionNormal
  let sep : TPE_Body × TPE_Body :=
    if b1_0.mass ≠ TPE_INFINITY then
      let cpS1 := TPE_vec3Multiply cpS (Int.tdiv collisionDepth 2) cpS
      ({ b1_0 with position := TPE_vec3Substract b1_0.position cpS1 b1_0.position },
       { b2_0 with position := TPE_vec3Add b2_0.position cpS1 b2_0.position })
    else
      let cpS1 := TPE_vec3Multiply cpS collisionDepth cpS
      (b1_0, { b2_0 with position := TPE_vec3Add b2_0.position cpS1 b2_0.position })
  let b1_1 := sep.1
  let b2_1 := sep.2
  let vel1 := TPE_bodyGetPointVelocity b1_1 p1
  let vel2 := TPE_bodyGetPointVelocity b2_1 p2
  let brk : TPE_Body × TPE_Body :=
    if TPE_vec3Len (TPE_vec3Minus vel1 vel2) ≥ TPE_ANTI_VIBRATION_VELOCITY_BREAK then
      ({ b1_1 with antiVibration := 0 }, { b2_1 with antiVibration := 0 })
    else (b1_1, b2_1)
  let b1_2 := brk.1
  let b2_2 := brk.2
  if TPE_vec3DotProduct collisionNormal vel1 < TPE_vec3DotProduct collisionNormal vel2 then
    (b1_2, b2_2)  -- invalid collision (bodies going away from each other)
  else
    let tmp1 := TPE_bodyGetMaxExtent b1_2
    let w1 := Int.tdiv (Int.tdiv (Int.tdiv (b1_2.mass * tmp1) TPE_FRACTIONS_PER_UNIT * tmp1)
      TPE_FRACTIONS_PER_UNIT) 5
    let q1 := Int.tdiv (TPE_FRACTIONS_PER_UNIT * TPE_FRACTIONS_PER_UNIT * 2) (TPE_nonZero w1)
    let nxp1 := TPE_vec3Cross collisionNormal p1
    let rot1 := TPE_vec3Times b1_2.rotation.axisVelocity b1_2.rotation.axisVelocity.w
    let tmp2 := TPE_bodyGetMaxExtent b2_2
    let w2 := Int.tdiv (Int.tdiv (Int.tdiv (b2_2.mass * tmp2) TPE_FRACTIONS_PER_UNIT * tmp2)
      TPE_FRACTIONS_PER_UNIT) 5
    let q2 := Int.tdiv (TPE_FRACTIONS_PER_UNIT * TPE_FRACTIONS_PER_UNIT * 2) (TPE_nonZero w2)
    let nxp2 := TPE_vec3Cross collisionNormal p2
    let rot2 := TPE_vec3Times b2_2.rotation.axisVelocity b2_2.rotation.axisVelocity.w
    let dynamic : Int := if b1_2.mass ≠ TPE_INFINITY then 1 else 0
    let a :=
      Int.tdiv (Int.tdiv (dynamic * TPE_FRACTIONS_PER_UNIT * TPE_FRACTIONS_PER_UNIT) b1_2.mass +
        Int.tdiv (TPE_FRACTIONS_PER_UNIT * TPE_FRACTIONS_PER_UNIT) b2_2.mass) 2 +
      Int.tdiv (dynamic * q1 * TPE_vec3DotProduct nxp1 nxp1 +
        q2 * TPE_vec3DotProduct nxp2 nxp2) (2 * TPE_FRACTIONS_PER_UNIT)
    let b :=
      TPE_vec3DotProduct b2_2.velocity collisionNormal + TPE_vec3DotProduct rot2 nxp2 -
      dynamic * (TPE_vec3DotProduct b1_2.velocity collisionNormal +
        TPE_vec3DotProduct rot1 nxp1)
    let e1 := dynamic * TPE_bodyGetKineticEnergy b1_2
    let e2 := TPE_bodyGetKineticEnergy b2_2
    let c :=
      Int.tdiv (dynamic * b1_2.mass * TPE_vec3DotProduct b1_2.velocity b1_2.velocity +
        b2_2.mass * TPE_vec3DotProduct b2_2.velocity b2_2.velocity)
        (2 * TPE_FRACTIONS_PER_UNIT) +
      Int.tdiv (dynamic * w1 * TPE_vec3DotProduct rot1 rot1 +
        w2 * TPE_vec3DotProduct rot2 rot2) TPE_FRACTIONS_PER_UNIT -
      Int.tdiv ((e1 + e2) * energyMultiplier) TPE_FRACTIONS_PER_UNIT
    let cD := TPE_sqrt (b * b - 4 * a * c)  -- discriminant
    let bN := b * (-1)
    let a2 := a * 2
    let x1 := Int.tdiv ((bN - cD) * TPE_FRACTIONS_PER_UNIT) a2
    let x2 := Int.tdiv ((bN + cD) * TPE_FRACTIONS_PER_UNIT) a2
    let x := if TPE_abs x1 < TPE_abs x2 then x2 else x1  -- take the non-0 solution
    let cnI := TPE_vec3Times collisionNormal x
    let u2 := TPE_bodyUpdateAntivibration b2_2
    let b2_3 := if u2.2 then TPE_bodyApplyImpulse u2.1 p2 cnI
      else TPE_bodyMultiplyKineticEnergy u2.1 0
    let b1_3 :=
      if b1_2.mass ≠ TPE_INFINITY then
        let u1 := TPE_bodyUpdateAntivibration b1_2
        if u1.2 then TPE_bodyApplyImpulse u1.1 p1 (TPE_vec3MultiplyPlain cnI (-1) cnI)
        else TPE_bodyMultiplyKineticEnergy u1.1 0
      else b1_2
    TPE_correctEnergies b1_3 b2_3 (e1 + e2) energyMultiplier

/-- `TPE_resolveCollision(body1,body2,collisionPoint,collisionNormal,
collisionDepth,energyMultiplier)`: if the second body is static the C code
swaps the two body pointers (so that the static body is the first) and flips
the normal; the returned pair is in the original argument order. -/
def TPE_resolveCollision (body1 body2 : TPE_Body) (collisionPoint collisionNormal : TPE_Vec4)
    (collisionDepth energyMultiplier : Int) : TPE_Body × TPE_Body :=
  if body2.mass = TPE_INFINITY then
    if body1.mass = TPE_INFINITY then (body1, body2)  -- static-static: do nothing
    else
      let cn := TPE_vec3MultiplyPlain collisionNormal (-1) collisionNormal
      let r := TPE_resolveCollisionMain body2 body1 collisionPoint cn
        collisionDepth energyMultiplier
      (r.2, r.1)
  else
    TPE_resolveCollisionMain body1 body2 collisionPoint collisionNormal
      collisionDepth energyMultiplier

/-- `TPE_attractBodies(body1,body2,acceleration)`. -/
def TPE_attractBodies (body1 body2 : TPE_Body) (acceleration : Int) :
    TPE_Body × TPE_Body :=
  let direction := TPE_createVecFromTo body2.position body1.position acceleration
  ({ body1 with velocity := TPE_vec3Minus body1.velocity direction },
   { body2 with velocity := TPE_vec3Plus body2.velocity direction })

/-- `TPE_getVelocitiesAfterCollision(v1,v2,m1,m2,elasticity)`: returns the
new `(v1,v2)`.  `ANTI_OVERFLOW = 30000`, `ANTI_OVERFLOW_SCALE = 128`. -/
def TPE_getVelocitiesAfterCollision (v1 v2 m1 m2 elasticity : Int) : Int × Int :=
  let overflowDanger := m1 > 30000 ∨ v1 > 30000 ∨ m2 > 30000 ∨ v2 > 30000
  let m1a := if overflowDanger then (if m1 ≠ 0 then TPE_nonZero (Int.tdiv m1 128) else 0) else m1
  let m2a := if overflowDanger then (if m2 ≠ 0 then TPE_nonZero (Int.tdiv m2 128) else 0) else m2
  let v1a := if overflowDanger then (if v1 ≠ 0 then TPE_nonZero (Int.tdiv v1 128) else 0) else v1
  let v2a := if overflowDanger then (if v2 ≠ 0 then TPE_nonZero (Int.tdiv v2 128) else 0) else v2
  let m1Pm2 := TPE_nonZero (m1a + m2a)
  let v2Mv1 := TPE_nonZero (v2a - v1a)
  let m1v1Pm2v2 := m1a * v1a + m2a * v2a
  let v1b := Int.tdiv (Int.tdiv (elasticity * m2a) TPE_FRACTIONS_PER_UNIT * v2Mv1 + m1v1Pm2v2) m1Pm2
  let v2b := Int.tdiv (Int.tdiv (elasticity * m1a) TPE_FRACTIONS_PER_UNIT * (-1) * v2Mv1 + m1v1Pm2v2) m1Pm2
  if overflowDanger then (v1b * 128, v2b * 128) else (v1b, v2b)

/-- `TPE_COLLISION_TYPE(shape1,shape2)`. -/
def TPE_COLLISION_TYPE (shape1 shape2 : Nat) : Nat :=
  if shape1 ≤ shape2 then shape1 * 256 + shape2 else shape2 * 256 + shape1

/-- `_TPE_getCapsuleCyllinderEndpoints(body,a,b)`: returns `(a,b)`. -/
def TPE_getCapsuleCyllinderEndpoints (body : TPE_Body) : TPE_Vec4 × TPE_Vec4 :=
  let quat := TPE_bodyGetOrientation body
  let a0 := TPE_vec4 0 (Int.tdiv body.shapeParams1 2) 0 0
  let b0 := TPE_vec4 0 ((-1) * a0.y) 0 0
  let a1 := TPE_rotatePoint a0 quat
  let b1 := TPE_rotatePoint b0 quat
  (TPE_vec3Add a1 body.position a1, TPE_vec3Add b1 body.position b1)

/-- `_TPE_cutLineSegmentByPlanes(center,sideOffset,lineStart,lineDir,t1,t2)`:
returns the updated `(t1,t2)`. -/
def TPE_cutLineSegmentByPlanes (center sideOffset lineStart0 lineDir : TPE_Vec4)
    (t1 t2 : Int) : Int × Int :=
  let lineStart := TPE_vec3Minus lineStart0 center
  let da := TPE_vec3DotProductPlain sideOffset lineStart
  let denom := TPE_nonZero (TPE_vec3DotProductPlain sideOffset lineDir)
  -- tAntiOverflow with dc = sideOffset:
  let tA0 := TPE_vec3DotProductPlain sideOffset sideOffset - da
  let tA := if TPE_abs tA0 < 500000 then Int.tdiv (tA0 * TPE_FRACTIONS_PER_UNIT) denom
    else Int.tdiv (Int.tdiv tA0 64 * TPE_FRACTIONS_PER_UNIT) (TPE_nonZero (Int.tdiv denom 64))
  -- tAntiOverflow with dc = -sideOffset:
  let dc := TPE_vec3MultiplyPlain sideOffset (-1) sideOffset
  let tB0 := TPE_vec3DotProductPlain sideOffset dc - da
  let tB := if TPE_abs tB0 < 500000 then Int.tdiv (tB0 * TPE_FRACTIONS_PER_UNIT) denom
    else Int.tdiv (Int.tdiv tB0 64 * TPE_FRACTIONS_PER_UNIT) (TPE_nonZero (Int.tdiv denom 64))
  let tA1 := if tB < tA then tB else tA
  let tB1 := if tB < tA then tA else tB
  (if tA1 > t1 then tA1 else t1, if tB1 < t2 then tB1 else t2)

/-- Sphere–sphere case of `TPE_bodyCollides` (also the target of the
recursive calls made by the capsule cases, which always pass two spheres). -/
def TPE_collidesSphereSphere (body1 body2 : TPE_Body) (cp cn : TPE_Vec4) :
    Int × TPE_Vec4 × TPE_Vec4 :=
  -- the local distanceVec's w is uninitialized in C (never read); modelled 0
  let distanceVec := TPE_vec3Substract body2.position body1.position (TPE_vec4 0 0 0 0)
  let distance0 := TPE_vec3Len distanceVec
  let distance := distance0 - (body1.shapeParams0 + body2.shapeParams0)
  if distance < 0 then
    ((-1) * distance,
     TPE_vec3Average body1.position body2.position cp,
     TPE_vec3Normalize distanceVec)
  else (0, cp, cn)

/-- Sphere–capsule case of `TPE_bodyCollides`. -/
def TPE_collidesSphereCapsule (body1 body2 : TPE_Body) (cp cn : TPE_Vec4) :
    Int × TPE_Vec4 × TPE_Vec4 :=
  let sphere := if body1.shape = TPE_SHAPE_SPHERE then body1 else body2
  let capsule := if body1.shape = TPE_SHAPE_SPHERE then body2 else body1
  let ends := TPE_getCapsuleCyllinderEndpoints capsule
  let sphere2 :=
    { TPE_bodyInit TPE_emptyBody with
      shape := TPE_SHAPE_SPHERE,
      shapeParams0 := capsule.shapeParams0,
      position := TPE_lineSegmentClosestPoint ends.1 ends.2 sphere.position }
  let swap := ¬ body1.shape = TPE_SHAPE_SPHERE  -- sphere == body2
  if swap then TPE_collidesSphereSphere sphere2 sphere cp cn
  else TPE_collidesSphereSphere sphere sphere2 cp cn

/-- Capsule–capsule case of `TPE_bodyCollides`. -/
def TPE_collidesCapsuleCapsule (body1 body2 : TPE_Body) (cp cn : TPE_Vec4) :
    Int × TPE_Vec4 × TPE_Vec4 :=
  let e1 := TPE_getCapsuleCyllinderEndpoints body1
  let e2 := TPE_getCapsuleCyllinderEndpoints body2
  let a1 := e1.1
  let b1 := e1.2
  let a2 := e2.1
  let b2 := e2.2
  let sq := fun (u v : TPE_Vec4) =>
    let t := TPE_vec3Minus u v
    t.x * t.x + t.y * t.y + t.z * t.z
  let aa0 := sq a1 a2
  let ab := sq a1 b2
  let ba0 := sq b1 a2
  let bb := sq b1 b2
  let aa := if ab < aa0 then ab else aa0
  let ba := if bb < ba0 then bb else ba0
  let a1' := if ba < aa then b1 else a1
  let a2' := TPE_lineSegmentClosestPoint a2 b2 a1'
  let a1'' := TPE_lineSegmentClosestPoint a1' b1 a2'
  let sphere1 :=
    { TPE_bodyInit TPE_emptyBody with
      shape := TPE_SHAPE_SPHERE, shapeParams0 := body1.shapeParams0, position := a1'' }
  let sphere2 :=
    { TPE_bodyInit TPE_emptyBody with
      shape := TPE_SHAPE_SPHERE, shapeParams0 := body2.shapeParams0, position := a2' }
  TPE_collidesSphereSphere sphere1 sphere2 cp cn

/-- Sphere–cylinder case of `TPE_bodyCollides`. -/
def TPE_collidesSphereCylinder (body1 body2 : TPE_Body) (cp cn : TPE_Vec4) :
    Int × TPE_Vec4 × TPE_Vec4 :=
  let sphere := if body1.shape = TPE_SHAPE_SPHERE then body1 else body2
  let cylinder := if body1.shape = TPE_SHAPE_SPHERE then body2 else body1
  let sphereRelativePos := TPE_vec3Minus sphere.position cylinder.position
  let cylinderAxis := TPE_rotatePoint (TPE_vec4 0 TPE_FRACTIONS_PER_UNIT 0 0)
    (TPE_bodyGetOrientation cylinder)
  let sphereAxisPos := TPE_vec3Projected sphereRelativePos cylinderAxis
  let sphereAxisDistance := TPE_vec3Len sphereAxisPos
  let tmp := Int.tdiv cylinder.shapeParams1 2
  if sphereAxisDistance ≥ tmp + sphere.shapeParams0 then (0, cp, cn)  -- case C
  else
    let sphereAxisToRelative := TPE_vec3Minus sphereRelativePos sphereAxisPos
    let sphereCylinderDistance := TPE_vec3Len sphereAxisToRelative
    let tmp2 := sphereAxisDistance - tmp
    if tmp2 < 0 then  -- case A: potential collision with the cylinder body
      let penetration := cylinder.shapeParams0 -
        (sphereCylinderDistance - sphere.shapeParams0)
      if penetration > 0 then
        let satr := TPE_vec3Normalize sphereAxisToRelative
        let cp' := TPE_vec3Plus cylinder.position
          (TPE_vec3Plus sphereAxisPos (TPE_vec3Times satr cylinder.shapeParams0))
        let cn' := if sphere = body1 then TPE_vec3MultiplyPlain satr (-1) satr else satr
        (penetration, cp', cn')
      else (0, cp, cn)
    else  -- case B
      let cylinderPlaneMiddle := TPE_vec3Times (TPE_vec3Normalized sphereAxisPos)
        (Int.tdiv cylinder.shapeParams1 2)
      if sphereCylinderDistance < cylinder.shapeParams0 then  -- top/bottom cap
        let penetration0 := Int.tdiv cylinder.shapeParams1 2 -
          (sphereAxisDistance - sphere.shapeParams0)
        let penetration := if penetration0 ≤ 0 then 1 else penetration0
        let cn0 := TPE_vec3Normalized sphereAxisPos
        let cp' := TPE_vec3Plus cylinder.position
          (TPE_vec3Plus sphereAxisToRelative cylinderPlaneMiddle)
        let cn' := if body1 = sphere then TPE_vec3MultiplyPlain cn0 (-1) cn0 else cn0
        (penetration, cp', cn')
      else  -- potential edge collision
        let edgePoint := TPE_vec3Plus cylinderPlaneMiddle
          (TPE_vec3Times (TPE_vec3Normalized sphereAxisToRelative) cylinder.shapeParams0)
        let penetration := sphere.shapeParams0 - TPE_vec3Dist edgePoint sphereRelativePos
        if penetration > 0 then
          let cp' := TPE_vec3Plus cylinder.position edgePoint
          let cn0 := TPE_vec3Normalized (TPE_vec3Minus sphereRelativePos edgePoint)
          let cn' := if body1 = sphere then TPE_vec3MultiplyPlain cn0 (-1) cn0 else cn0
          (penetration, cp', cn')
        else (0, cp, cn)

/-- The cuboid half-extent axes `aX`,`aY`,`aZ` built inside the
cuboid–cuboid case of `TPE_bodyCollides`. -/
def TPE_cuboidAxes (b : TPE_Body) : TPE_Vec4 × TPE_Vec4 × TPE_Vec4 :=
  let q := TPE_bodyGetOrientation b
  (TPE_rotatePoint (TPE_vec4 (Int.tdiv b.shapeParams0 2) 0 0 0) q,
   TPE_rotatePoint (TPE_vec4 0 (Int.tdiv b.shapeParams1 2) 0 0) q,
   TPE_rotatePoint (TPE_vec4 0 0 (Int.tdiv b.shapeParams2 2) 0) q)

/-- The per-coordinate min/max updates of the collision extents done for
each clipped edge endpoint in the cuboid–cuboid case. -/
def TPE_extentUpdate (mn mx p : TPE_Vec4) : TPE_Vec4 × TPE_Vec4 :=
  ({ mn with
     x := if p.x < mn.x then p.x else mn.x,
     y := if p.y < mn.y then p.y else mn.y,
     z := if p.z < mn.z then p.z else mn.z },
   { mx with
     x := if p.x > mx.x then p.x else mx.x,
     y := if p.y > mx.y then p.y else mx.y,
     z := if p.z > mx.z then p.z else mx.z })

/-- One edge of the inner `for each edge` loop of the cuboid–cuboid case:
build the edge from `bodyA`'s axes, clip it by `bodyB`'s three slabs
(with early break when `t1 > t2`), and extend the collision extents with
the clipped endpoints.  The intermediate writes to `collisionPoint` are
dead (it is fully overwritten before any return), so only the state
`(collisionHappened, extentMin, extentMax)` is threaded. -/
def TPE_cuboidEdgeCheck (posA aX1 aY1 aZ1 : TPE_Vec4) (posB aX2 aY2 aZ2 : TPE_Vec4)
    (st : Bool × TPE_Vec4 × TPE_Vec4) (edge : Nat) : Bool × TPE_Vec4 × TPE_Vec4 :=
  let off := fun (c : Nat) (v a : TPE_Vec4) =>
    if edge &&& c ≠ 0 then TPE_vec3Plus v a else TPE_vec3Minus v a
  let lineStart := off 0x01 (off 0x02 (off 0x04 posA aX1) aY1) aZ1
  let lineEnd := off 0x08 (off 0x10 (off 0x20 posA aX1) aY1) aZ1
  let edgeDir := TPE_vec3Minus lineEnd lineStart
  let s1 := TPE_cutLineSegmentByPlanes posB aX2 lineStart edgeDir 0 TPE_FRACTIONS_PER_UNIT
  let s2 := if s1.1 > s1.2 then s1
    else TPE_cutLineSegmentByPlanes posB aY2 lineStart edgeDir s1.1 s1.2
  let s3 := if s2.1 > s2.2 then s2
    else TPE_cutLineSegmentByPlanes posB aZ2 lineStart edgeDir s2.1 s2.2
  if s3.2 > s3.1 then
    let pA := TPE_vec3Plus lineStart
      { edgeDir with
        x := Int.tdiv (edgeDir.x * s3.1) TPE_FRACTIONS_PER_UNIT,
        y := Int.tdiv (edgeDir.y * s3.1) TPE_FRACTIONS_PER_UNIT,
        z := Int.tdiv (edgeDir.z * s3.1) TPE_FRACTIONS_PER_UNIT }
    let e1 := TPE_extentUpdate st.2.1 st.2.2 pA
    let pB := TPE_vec3Plus lineStart
      { edgeDir with
        x := Int.tdiv (edgeDir.x * s3.2) TPE_FRACTIONS_PER_UNIT,
        y := Int.tdiv (edgeDir.y * s3.2) TPE_FRACTIONS_PER_UNIT,
        z := Int.tdiv (edgeDir.z * s3.2) TPE_FRACTIONS_PER_UNIT }
    let e2 := TPE_extentUpdate e1.1 e1.2 pB
    (true, e2.1, e2.2)
  else st

/-- The list of the 12 cuboid edges as axis-sign masks. -/
def TPE_cuboidEdges : List Nat :=
  [0x3b, 0x3e, 0x13, 0x16, 0x29, 0x2c, 0x01, 0x04, 0x3d, 0x19, 0x10, 0x34]

/-- The `checkAxis` macro of the cuboid–cuboid case: pick the axis (or its
negation) with the largest normalized dot with `extTmp`. -/
def TPE_checkAxis (best : TPE_Vec4 × Int) (a extTmp : TPE_Vec4) : TPE_Vec4 × Int :=
  let currentDot := Int.tdiv (TPE_vec3DotProduct a extTmp * TPE_FRACTIONS_PER_UNIT)
    (TPE_nonZero (TPE_vec3DotProduct a a))
  if currentDot > best.2 then (a, currentDot)
  else
    let c2 := currentDot * (-1)
    if c2 > best.2 then (TPE_vec3MultiplyPlain a (-1) a, c2) else best

/-- One iteration of the closing `for each body` loop of the cuboid–cuboid
case: the "closest" side axis to the collision point and the resulting
penetration depth for that body. -/
def TPE_cuboidSidePick (cpv pos aX aY aZ : TPE_Vec4) : Int × TPE_Vec4 :=
  let extTmp := TPE_vec3Minus cpv pos
  let b1 := TPE_checkAxis (TPE_vec4 1 0 0 0, -1) aX extTmp
  let b2 := TPE_checkAxis b1 aY extTmp
  let b3 := TPE_checkAxis b2 aZ extTmp
  let len0 := TPE_nonZero (TPE_vec3Len b3.1)
  (len0 - Int.tdiv (TPE_vec3DotProductPlain b3.1 (TPE_vec3Minus cpv pos)) len0, b3.1)

/-- Cuboid–cuboid case of `TPE_bodyCollides`.  The C code swaps the two
body pointers after the first iteration of its outer loop, so the second
edge pass and the first side pick use `body2`'s data. -/
def TPE_collidesCuboidCuboid (body1 body2 : TPE_Body) (cp cn : TPE_Vec4) :
    Int × TPE_Vec4 × TPE_Vec4 :=
  let ax1 := TPE_cuboidAxes body1
  let ax2 := TPE_cuboidAxes body2
  let st0 : Bool × TPE_Vec4 × TPE_Vec4 :=
    (false,
     TPE_vec4 TPE_INFINITY TPE_INFINITY TPE_INFINITY 0,
     TPE_vec4 (-TPE_INFINITY) (-TPE_INFINITY) (-TPE_INFINITY) 0)
  let st1 := TPE_cuboidEdges.foldl
    (TPE_cuboidEdgeCheck body1.position ax1.1 ax1.2.1 ax1.2.2
      body2.position ax2.1 ax2.2.1 ax2.2.2) st0
  let st2 := TPE_cuboidEdges.foldl
    (TPE_cuboidEdgeCheck body2.position ax2.1 ax2.2.1 ax2.2.2
      body1.position ax1.1 ax1.2.1 ax1.2.2) st1
  if st2.1 then
    let s := TPE_vec3Plus st2.2.1 st2.2.2
    let cp' := TPE_vec4 (Int.tdiv s.x 2) (Int.tdiv s.y 2) (Int.tdiv s.z 2) 0
    let result0 : Int := -TPE_INFINITY
    -- closing loop, iteration 0 (the swapped body1 = original body2):
    let p2 := TPE_cuboidSidePick cp' body2.position ax2.1 ax2.2.1 ax2.2.2
    let result1 := if p2.1 > result0 then p2.1 else result0
    let cn1 := if p2.1 > result0 then
        let nrm := TPE_vec3Normalize p2.2
        TPE_vec3MultiplyPlain nrm (-1) nrm
      else cn
    -- closing loop, iteration 1 (the swapped body2 = original body1):
    let p1 := TPE_cuboidSidePick cp' body1.position ax1.1 ax1.2.1 ax1.2.2
    let result2 := if p1.1 > result1 then p1.1 else result1
    let cn2 := if p1.1 > result1 then TPE_vec3Normalize p1.2 else cn1
    (if result2 > 1 then result2 else 1, cp', cn2)
  else (0, cp, cn)

/-- `TPE_bodyCollides(body1,body2,collisionPoint,collisionNormal)`: returns
the collision depth (0 for no collision) and the updated out-parameters. -/
def TPE_bodyCollides (body1 body2 : TPE_Body) (cp cn : TPE_Vec4) :
    Int × TPE_Vec4 × TPE_Vec4 :=
  let collType := TPE_COLLISION_TYPE body1.shape body2.shape
  if collType ≠ TPE_COLLISION_TYPE TPE_SHAPE_SPHERE TPE_SHAPE_SPHERE ∧
      TPE_vec3Len (TPE_vec3Minus body1.position body2.position) >
        body1.boundingSphereRadius + body2.boundingSphereRadius then
    (0, cp, cn)  -- bounding sphere early-out
  else if collType = TPE_COLLISION_TYPE TPE_SHAPE_SPHERE TPE_SHAPE_SPHERE then
    TPE_collidesSphereSphere body1 body2 cp cn
  else if collType = TPE_COLLISION_TYPE TPE_SHAPE_SPHERE TPE_SHAPE_CAPSULE then
    TPE_collidesSphereCapsule body1 body2 cp cn
  else if collType = TPE_COLLISION_TYPE TPE_SHAPE_CAPSULE TPE_SHAPE_CAPSULE then
    TPE_collidesCapsuleCapsule body1 body2 cp cn
  else if collType = TPE_COLLISION_TYPE TPE_SHAPE_SPHERE TPE_SHAPE_CYLINDER then
    TPE_collidesSphereCylinder body1 body2 cp cn
  else if collType = TPE_COLLISION_TYPE TPE_SHAPE_CUBOID TPE_SHAPE_CUBOID then
    TPE_collidesCuboidCuboid body1 body2 cp cn
  else (0, cp, cn)

/-- `TPE_worldStepBodies(world)`: `TPE_bodyStep` on each body in index order. -/
def TPE_worldStepBodies (bodies : List TPE_Body) : List TPE_Body :=
  bodies.map TPE_bodyStep

/-- `TPE_worldApplyGravityDown(world,g)`: subtract `g` from the `y` velocity
of every body whose mass is not `TPE_INFINITY`. -/
def TPE_worldApplyGravityDown (bodies : List TPE_Body) (g : Int) : List TPE_Body :=
  bodies.map fun b =>
    if b.mass ≠ TPE_INFINITY then
      { b with velocity := { b.velocity with y := b.velocity.y - g } }
    else b

/-- Body `j` of the inner loop of `TPE_worldResolveCollisionNaive`: detect
and (for a nonzero depth) resolve the collision of the pair `(i,j)`,
threading the loop-local out-parameters `p`,`n`. -/
def TPE_worldResolvePairStep (i : Nat) (st : List TPE_Body × TPE_Vec4 × TPE_Vec4)
    (j : Nat) : List TPE_Body × TPE_Vec4 × TPE_Vec4 :=
  let bs := st.1
  let b1 := bs.getD i TPE_emptyBody
  let b2 := bs.getD j TPE_emptyBody
  if b1.mass ≠ TPE_INFINITY ∨ b2.mass ≠ TPE_INFINITY then
    let d := TPE_bodyCollides b1 b2 st.2.1 st.2.2
    if d.1 ≠ 0 then
      let r := TPE_resolveCollision b1 b2 d.2.1 d.2.2 d.1 300
      ((bs.set i r.1).set j r.2, d.2.1, d.2.2)
    else (bs, d.2.1, d.2.2)
  else st

/-- `TPE_worldResolveCollisionNaive(world)`: all pairs `i < j` in ascending
order.  The loop-local `p`,`n` are uninitialized in C at the top of each
outer iteration (they are written before every use); modelled as zero. -/
def TPE_worldResolveCollisionNaive (bodies : List TPE_Body) : List TPE_Body :=
  let count := bodies.length
  (List.range (count - 1)).foldl
    (fun bs i =>
      ((List.range' (i + 1) (count - (i + 1))).foldl (TPE_worldResolvePairStep i)
        (bs, TPE_vec4 0 0 0 0, TPE_vec4 0 0 0 0)).1)
    bodies

/-- The closest-point formula as the specification words it:
`t = clamp(dot(b-a, p-a) / dot(b-a,b-a), 0, F)` (fixed-point division with
the `nonZero` guard) and `a + t·(b-a)`. -/
def lineSegmentClosestPoint_spec (a b p : TPE_Vec4) : TPE_Vec4 :=
  let ab := TPE_vec3Minus b a
  let t := TPE_clamp
    (Int.tdiv (TPE_vec3DotProduct ab (TPE_vec3Minus p a) * TPE_FRACTIONS_PER_UNIT)
      (TPE_nonZero (TPE_vec3DotProduct ab ab)))
    0 TPE_FRACTIONS_PER_UNIT
  TPE_vec3Plus a (TPE_vec3Multiply ab t ab)

/-- A concrete static body (infinite mass, zero velocity) used as a test
vehicle for the claims about static bodies. -/
def exampleStaticBody : TPE_Body :=
  { TPE_bodyInit TPE_emptyBody with
    shape := TPE_SHAPE_SPHERE, shapeParams0 := 256,
    mass := TPE_INFINITY, position := TPE_vec4 512 0 0 0 }

/-- A concrete dynamic body used as a test vehicle. -/
def exampleDynamicBody : TPE_Body :=
  { TPE_bodyInit TPE_emptyBody with
    shape := TPE_SHAPE_SPHERE, shapeParams0 := 256,
    velocity := TPE_vec4 10 0 0 0 }

/-! ## Helper lemmas -/

/-- `TPE_clamp` over `[0, F]` agrees with the two-sided `if` chain used in
`TPE_lineSegmentClosestPoint`. -/
theorem TPE_clamp_eq_ite (t : Int) :
    TPE_clamp t 0 TPE_FRACTIONS_PER_UNIT =
      (if t < 0 then 0 else if t > TPE_FRACTIONS_PER_UNIT then TPE_FRACTIONS_PER_UNIT else t) := by
  unfold TPE_clamp
  split_ifs <;> omega

/-- `TPE_bodyMultiplyKineticEnergy` does nothing to a static body. -/
theorem bodyMultiplyKineticEnergy_static (b : TPE_Body) (f : Int)
    (h : b.mass = TPE_INFINITY) : TPE_bodyMultiplyKineticEnergy b f = b := by
  unfold TPE_bodyMultiplyKineticEnergy
  rw [if_pos h]

/-- `TPE_correctEnergies` does nothing to a static first body. -/
theorem correctEnergies_static_fst (b1 b2 : TPE_Body) (p r : Int)
    (h : b1.mass = TPE_INFINITY) : (TPE_correctEnergies b1 b2 p r).1 = b1 := by
  unfold TPE_correctEnergies
  split_ifs <;>
    simp [bodyMultiplyKineticEnergy_static, h,
      apply_ite (Prod.fst (α := TPE_Body) (β := TPE_Body))]

/-- The main path of `TPE_resolveCollision` never moves a static first body
or changes its velocity. -/
theorem resolveCollisionMain_static_fst (b1 b2 : TPE_Body) (cp cn : TPE_Vec4)
    (cd em : Int) (h : b1.mass = TPE_INFINITY) :
    (TPE_resolveCollisionMain b1 b2 cp cn cd em).1.position = b1.position ∧
    (TPE_resolveCollisionMain b1 b2 cp cn cd em).1.velocity = b1.velocity := by
  simp only [TPE_resolveCollisionMain]
  rw [if_neg (not_ne_iff.mpr h)]
  dsimp only
  split_ifs <;>
    first
      | exact ⟨rfl, rfl⟩
      | (constructor <;> rw [correctEnergies_static_fst _ _ _ _ (by exact h)])
      | (exfalso; simp_all)

/-- `TPE_worldApplyGravityDown` keeps a static body untouched. -/
theorem worldApplyGravityDown_static_getD (bodies : List TPE_Body) (g : Int) (i : Nat)
    (hmass : (bodies.getD i TPE_emptyBody).mass = TPE_INFINITY) :
    (TPE_worldApplyGravityDown bodies g).getD i TPE_emptyBody =
      bodies.getD i TPE_emptyBody := by
  by_cases hi : i < bodies.length
  · unfold TPE_worldApplyGravityDown
    rw [List.getD_eq_getElem bodies TPE_emptyBody hi,
      List.getD_eq_getElem _ TPE_emptyBody (by simpa using hi), List.getElem_map]
    rw [List.getD_eq_getElem bodies TPE_emptyBody hi] at hmass
    rw [if_neg (not_ne_iff.mpr hmass)]
  · have hlen : bodies.length ≤ i := Nat.le_of_not_lt hi
    rw [List.getD_eq_default _ _ hlen, List.getD_eq_default _ _ (by
      unfold TPE_worldApplyGravityDown
      simpa using hlen)]

/-- `TPE_sqrtLoopGo` with `b = 0` returns `result` for any iteration bound. -/
theorem TPE_sqrtLoopGo_zero_b (a r fuel : Nat) : TPE_sqrtLoopGo a r 0 fuel = r := by
  cases fuel <;> simp [TPE_sqrtLoopGo]

/-- The first loop of `TPE_sqrt` finds the largest power of four below the
input (for positive inputs below `4^(j+1)`, starting from `4^j`). -/
theorem TPE_sqrtShrinkGo_spec (j : Nat) : ∀ fuel a : Nat, j + 1 ≤ fuel → 1 ≤ a →
    a < 4 ^ (j + 1) →
    ∃ m, m ≤ j ∧ TPE_sqrtShrinkGo a (4 ^ j) fuel = 4 ^ m ∧ 4 ^ m ≤ a ∧ a < 4 ^ (m + 1) := by
  induction j with
  | zero =>
    intro fuel a hf ha hup
    obtain ⟨f, rfl⟩ : ∃ f, fuel = f + 1 := ⟨fuel - 1, by omega⟩
    refine ⟨0, Nat.le_refl 0, ?_, by simpa using ha, hup⟩
    unfold TPE_sqrtShrinkGo
    rw [if_neg (by simp only [pow_zero]; omega)]
  | succ j ih =>
    intro fuel a hf ha hup
    obtain ⟨f, rfl⟩ : ∃ f, fuel = f + 1 := ⟨fuel - 1, by omega⟩
    by_cases hgt : 4 ^ (j + 1) > a
    · have hdiv : (4 : Nat) ^ (j + 1) / 4 = 4 ^ j := by
        rw [pow_succ]
        exact Nat.mul_div_cancel _ (by omega)
      have hstep : TPE_sqrtShrinkGo a (4 ^ (j + 1)) (f + 1) = TPE_sqrtShrinkGo a (4 ^ j) f := by
        conv_lhs => rw [TPE_sqrtShrinkGo]
        rw [if_pos hgt, hdiv]
      obtain ⟨m, hm, heq, hle, hlt⟩ := ih f a (by omega) ha hgt
      exact ⟨m, by omega, by rw [hstep, heq], hle, hlt⟩
    · refine ⟨j + 1, Nat.le_refl _, ?_, by omega, hup⟩
      unfold TPE_sqrtShrinkGo
      rw [if_neg hgt]

/-- Invariant of the second loop of `TPE_sqrt`: with remainder `x - h*h`,
partial root `h` stored as `h * 2^(k+1)` and bit `b = 4^k`, the loop
computes `Nat.sqrt x` whenever `h ≤ √x < h + 2^(k+1)`. -/
theorem TPE_sqrtLoopGo_spec (k : Nat) : ∀ fuel x h : Nat, k + 1 ≤ fuel →
    h ≤ Nat.sqrt x → Nat.sqrt x < h + 2 ^ (k + 1) →
    TPE_sqrtLoopGo (x - h * h) (h * 2 ^ (k + 1)) (4 ^ k) fuel = Nat.sqrt x := by
  induction k with
  | zero =>
    intro fuel x h hf hle hlt
    obtain ⟨f, rfl⟩ : ∃ f, fuel = f + 1 := ⟨fuel - 1, by omega⟩
    have hh : h * h ≤ x := Nat.le_sqrt.mp hle
    have e1 : (2 : Nat) ^ (0 + 1) = 2 := by norm_num
    have e2 : (4 : Nat) ^ 0 = 1 := by norm_num
    rw [e1] at hlt ⊢
    rw [e2]
    simp only [TPE_sqrtLoopGo]
    rw [if_neg (by omega : ¬ (1 : Nat) = 0)]
    by_cases hc : x - h * h ≥ h * 2 + 1
    · rw [if_pos hc]
      have h1 : (1 : Nat) / 4 = 0 := by omega
      have h2 : (h * 2 + 2 * 1) / 2 = h + 1 := by omega
      rw [h1, h2, TPE_sqrtLoopGo_zero_b]
      have hsq : (h + 1) * (h + 1) = h * h + h * 2 + 1 := by ring
      have hx : (h + 1) * (h + 1) ≤ x := by omega
      have : h + 1 ≤ Nat.sqrt x := Nat.le_sqrt.mpr hx
      omega
    · rw [if_neg hc]
      have h1 : (1 : Nat) / 4 = 0 := by omega
      have h2 : h * 2 / 2 = h := by omega
      rw [h1, h2, TPE_sqrtLoopGo_zero_b]
      have hsq : (h + 1) * (h + 1) = h * h + h * 2 + 1 := by ring
      have hx : x < (h + 1) * (h + 1) := by omega
      have : Nat.sqrt x < h + 1 := Nat.sqrt_lt.mpr hx
      omega
  | succ k ih =>
    intro fuel x h hf hle hlt
    obtain ⟨f, rfl⟩ : ∃ f, fuel = f + 1 := ⟨fuel - 1, by omega⟩
    have hh : h * h ≤ x := Nat.le_sqrt.mp hle
    have hP2 : (2 : Nat) ^ (k + 1 + 1) = 2 ^ (k + 1) * 2 := by rw [pow_succ]
    have hP4 : (4 : Nat) ^ (k + 1) = 2 ^ (k + 1) * 2 ^ (k + 1) := by
      rw [show (4 : Nat) = 2 * 2 from rfl, mul_pow]
    have hb0 : (4 : Nat) ^ (k + 1) ≠ 0 := by positivity
    have hdiv4 : (4 : Nat) ^ (k + 1) / 4 = 4 ^ k := by
      rw [pow_succ]
      exact Nat.mul_div_cancel _ (by omega)
    simp only [TPE_sqrtLoopGo]
    rw [if_neg hb0]
    set P := (2 : Nat) ^ (k + 1) with hP
    by_cases hc : x - h * h ≥ h * 2 ^ (k + 1 + 1) + 4 ^ (k + 1)
    · rw [if_pos hc]
      have hsq : (h + P) * (h + P) = h * h + (h * (P * 2) + P * P) := by ring
      have hxge : (h + P) * (h + P) ≤ x := by
        rw [hsq]
        rw [hP2, hP4] at hc
        omega
      have hle' : h + P ≤ Nat.sqrt x := Nat.le_sqrt.mpr hxge
      have ha' : x - h * h - (h * 2 ^ (k + 1 + 1) + 4 ^ (k + 1)) = x - (h + P) * (h + P) := by
        rw [Nat.sub_sub, hsq, hP2, hP4]
      have hr' : (h * 2 ^ (k + 1 + 1) + 2 * 4 ^ (k + 1)) / 2 = (h + P) * P := by
        have : h * 2 ^ (k + 1 + 1) + 2 * 4 ^ (k + 1) = 2 * ((h + P) * P) := by
          rw [hP2, hP4]; ring
        rw [this]
        exact Nat.mul_div_cancel_left _ (by omega)
      rw [ha', hr', hdiv4]
      have := ih f x (h + P) (by omega) hle' (by rw [hP2] at hlt; omega)
      simpa using this
    · rw [if_neg hc]
      have hxlt : x < (h + P) * (h + P) := by
        have hsq : (h + P) * (h + P) = h * h + (h * (P * 2) + P * P) := by ring
        rw [hsq]
        rw [hP2, hP4] at hc
        omega
      have hlt' : Nat.sqrt x < h + P := Nat.sqrt_lt.mpr hxlt
      have hr' : h * 2 ^ (k + 1 + 1) / 2 = h * P := by
        have : h * 2 ^ (k + 1 + 1) = 2 * (h * P) := by rw [hP2]; ring
        rw [this]
        exact Nat.mul_div_cancel_left _ (by omega)
      rw [hr', hdiv4]
      have := ih f x h (by omega) hle (by omega)
      simpa using this

/-- The two loops of `TPE_sqrt` compute `Nat.sqrt` on every `uint32` input. -/
theorem TPE_sqrtNat_correct (a : Nat) (ha : a < 2 ^ 32) : TPE_sqrtNat a = Nat.sqrt a := by
  by_cases h0 : a = 0
  · subst h0
    decide
  · unfold TPE_sqrtNat TPE_sqrtShrink TPE_sqrtLoop
    have h430 : (2 : Nat) ^ 30 = 4 ^ 15 := by norm_num
    have h416 : a < 4 ^ (15 + 1) := by norm_num at ha ⊢; omega
    obtain ⟨m, hm, heq, hle, hlt⟩ := TPE_sqrtShrinkGo_spec 15 32 a (by omega) (by omega) h416
    rw [h430, heq]
    have hsqlt : Nat.sqrt a < 0 + 2 ^ (m + 1) := by
      have h4 : (4 : Nat) ^ (m + 1) = 2 ^ (m + 1) * 2 ^ (m + 1) := by
        rw [show (4 : Nat) = 2 * 2 from rfl, mul_pow]
      have hs : Nat.sqrt a < 2 ^ (m + 1) := Nat.sqrt_lt.mpr (by rw [← h4]; exact hlt)
      omega
    have := TPE_sqrtLoopGo_spec m 32 a 0 (by omega) (Nat.zero_le _) hsqlt
    simpa using this

/-! ## Claim theorems -/

/-- C1 (counterexample): the claim says that for a negative true product the
returned value equals `a*b/F`; at `a = -512`, `b = 1` the product is `-512`,
`a*b/F` is `-1`, but `TPE_timesAntiZero` returns `1`. -/
theorem timesAntiZero_claim_counterexample :
    ¬ (TPE_timesAntiZero (-512) 1 = Int.tdiv ((-512) * 1) TPE_FRACTIONS_PER_UNIT) := by
  decide

/-- C1 (amended): `TPE_timesAntiZero(a,b)` returns `a*b/F` when `a*b ≥ F`,
returns `0` when `a*b = 0`, and returns `1` whenever `0 ≠ a*b < F` —
including every negative product, whose sign is not preserved. -/
theorem timesAntiZero_amended (a b : Int) :
    (a * b ≥ TPE_FRACTIONS_PER_UNIT →
      TPE_timesAntiZero a b = Int.tdiv (a * b) TPE_FRACTIONS_PER_UNIT) ∧
    (a * b = 0 → TPE_timesAntiZero a b = 0) ∧
    (a * b < TPE_FRACTIONS_PER_UNIT → a * b ≠ 0 → TPE_timesAntiZero a b = 1) := by
  unfold TPE_timesAntiZero
  refine ⟨fun h => ?_, fun h => ?_, fun h h2 => ?_⟩
  · rw [if_pos h]
  · simp only [h]
    decide
  · rw [if_neg (by omega), if_pos h2]

/-- C1 (witness): the amended theorem applied at `a = -512`, `b = 1`. -/
theorem timesAntiZero_amended_witness : TPE_timesAntiZero (-512) 1 = 1 :=
  (timesAntiZero_amended (-512) 1).2.2 (by decide) (by decide)

/-- C2 (counterexample): on the segment (0,0,0)–(100,0,0) the query (50,0,0)
returns (47,0,0), not exactly (50,0,0); and for the short segment
(0,0,0)–(10,0,0) the query (11,0,0), which lies on the extension past the
endpoint (10,0,0), returns the other endpoint (0,0,0). -/
theorem lineSegmentClosestPoint_counterexample :
    (TPE_lineSegmentClosestPoint (TPE_vec4 0 0 0 0) (TPE_vec4 100 0 0 0) (TPE_vec4 50 0 0 0) =
        TPE_vec4 47 0 0 0 ∧
      TPE_vec4 47 0 0 0 ≠ TPE_vec4 50 0 0 0) ∧
    (TPE_lineSegmentClosestPoint (TPE_vec4 0 0 0 0) (TPE_vec4 10 0 0 0) (TPE_vec4 11 0 0 0) =
        TPE_vec4 0 0 0 0 ∧
      TPE_vec4 0 0 0 0 ≠ TPE_vec4 10 0 0 0) := by
  exact ⟨⟨by decide, by decide⟩, ⟨by decide, by decide⟩⟩

/-- C2 (amended): `TPE_lineSegmentClosestPoint` computes
`t = clamp(dot(b-a,p-a)·F / nonZero(dot(b-a,b-a)), 0, F)` and returns
`a + t·(b-a)` in truncating fixed-point arithmetic; on the segment
(0,0,0)–(100,0,0) the query (50,0,0) yields (47,0,0) (3 units from the true
midpoint, not exact), the query (-50,0,0) past endpoint `a` yields exactly
`a`, and the query (150,0,0) past endpoint `b` yields exactly `b`. -/
theorem lineSegmentClosestPoint_amended :
    (∀ a b p, TPE_lineSegmentClosestPoint a b p = lineSegmentClosestPoint_spec a b p) ∧
    TPE_lineSegmentClosestPoint (TPE_vec4 0 0 0 0) (TPE_vec4 100 0 0 0) (TPE_vec4 50 0 0 0) =
      TPE_vec4 47 0 0 0 ∧
    TPE_lineSegmentClosestPoint (TPE_vec4 0 0 0 0) (TPE_vec4 100 0 0 0) (TPE_vec4 (-50) 0 0 0) =
      TPE_vec4 0 0 0 0 ∧
    TPE_lineSegmentClosestPoint (TPE_vec4 0 0 0 0) (TPE_vec4 100 0 0 0) (TPE_vec4 150 0 0 0) =
      TPE_vec4 100 0 0 0 := by
  refine ⟨fun a b p => ?_, by decide, by decide, by decide⟩
  unfold TPE_lineSegmentClosestPoint lineSegmentClosestPoint_spec
  simp only [TPE_clamp_eq_ite]

/-- C3 (code evaluated at the failing input): rotating `(F,0,0)` by the
quarter-turn quaternion around the `z` axis yields `(3,-502,0)`, which is
1014 units away from the documented right-hand-rule result `(0,F,0)` and
only 10 units away from its mirror `(0,-F,0)`: `TPE_rotatePoint`
multiplies the point by the transpose of the rotation matrix of the
quaternion and therefore applies the inverse (clockwise) rotation. -/
theorem rotatePoint_quarterTurn_eval :
    TPE_rotatePoint (TPE_vec4 TPE_FRACTIONS_PER_UNIT 0 0 0)
        (TPE_rotationToQuaternion (TPE_vec4 0 0 TPE_FRACTIONS_PER_UNIT 0)
          (Int.tdiv TPE_FRACTIONS_PER_UNIT 4)) =
      TPE_vec4 3 (-502) 0 0 ∧
    TPE_vec3Dist (TPE_vec4 3 (-502) 0 0) (TPE_vec4 0 TPE_FRACTIONS_PER_UNIT 0 0) = 1014 ∧
    TPE_vec3Dist (TPE_vec4 3 (-502) 0 0) (TPE_vec4 0 (-TPE_FRACTIONS_PER_UNIT) 0 0) = 10 := by
  exact ⟨by decide, by decide, by decide⟩

/-- C4 (counterexample): `TPE_attractBodies` has no static-body check, so it
changes the velocity of a body with mass `TPE_INFINITY` and zero velocity. -/
theorem attractBodies_static_counterexample :
    exampleStaticBody.mass = TPE_INFINITY ∧
    exampleStaticBody.velocity = TPE_vec4 0 0 0 0 ∧
    (TPE_attractBodies exampleStaticBody exampleDynamicBody 512).1.velocity ≠
      TPE_vec4 0 0 0 0 := by
  exact ⟨by decide, by decide, by decide⟩

/-- C4 (amended): a static body (mass `TPE_INFINITY`) keeps its position and
velocity under `TPE_bodyStep`, under `TPE_resolveCollision` in either
argument position, and is skipped by `TPE_worldApplyGravityDown` — but
`TPE_attractBodies` is excluded, since it does change a static body's
velocity (see the counterexample). -/
theorem staticBody_invariant_amended (b b2 : TPE_Body) (cp cn : TPE_Vec4)
    (cd em g : Int) (bodies : List TPE_Body) (i : Nat)
    (h : b.mass = TPE_INFINITY) :
    ((TPE_bodyStep b).position = b.position ∧ (TPE_bodyStep b).velocity = b.velocity) ∧
    ((TPE_resolveCollision b b2 cp cn cd em).1.position = b.position ∧
      (TPE_resolveCollision b b2 cp cn cd em).1.velocity = b.velocity) ∧
    ((TPE_resolveCollision b2 b cp cn cd em).2.position = b.position ∧
      (TPE_resolveCollision b2 b cp cn cd em).2.velocity = b.velocity) ∧
    ((bodies.getD i TPE_emptyBody).mass = TPE_INFINITY →
      (TPE_worldApplyGravityDown bodies g).getD i TPE_emptyBody =
        bodies.getD i TPE_emptyBody) := by
  refine ⟨?_, ?_, ?_, fun hm => worldApplyGravityDown_static_getD bodies g i hm⟩
  · unfold TPE_bodyStep
    rw [if_neg (not_ne_iff.mpr h)]
    dsimp only
    split_ifs <;> exact ⟨rfl, rfl⟩
  · unfold TPE_resolveCollision
    by_cases hb2 : b2.mass = TPE_INFINITY
    · rw [if_pos hb2, if_pos h]
      exact ⟨rfl, rfl⟩
    · rw [if_neg hb2]
      exact resolveCollisionMain_static_fst b b2 cp cn cd em h
  · unfold TPE_resolveCollision
    rw [if_pos h]
    by_cases hb2 : b2.mass = TPE_INFINITY
    · rw [if_pos hb2]
      exact ⟨rfl, rfl⟩
    · rw [if_neg hb2]
      exact resolveCollisionMain_static_fst b b2 cp
        (TPE_vec3MultiplyPlain cn (-1) cn) cd em h

/-- C4 (witness): the amended theorem applied to a concrete static body. -/
theorem staticBody_invariant_witness :
    ((TPE_bodyStep exampleStaticBody).position = exampleStaticBody.position ∧
      (TPE_bodyStep exampleStaticBody).velocity = exampleStaticBody.velocity) ∧
    ((TPE_resolveCollision exampleStaticBody exampleDynamicBody (TPE_vec4 384 0 0 0)
          (TPE_vec4 512 0 0 0) 10 300).1.position = exampleStaticBody.position ∧
      (TPE_resolveCollision exampleStaticBody exampleDynamicBody (TPE_vec4 384 0 0 0)
          (TPE_vec4 512 0 0 0) 10 300).1.velocity = exampleStaticBody.velocity) ∧
    ((TPE_resolveCollision exampleDynamicBody exampleStaticBody (TPE_vec4 384 0 0 0)
          (TPE_vec4 512 0 0 0) 10 300).2.position = exampleStaticBody.position ∧
      (TPE_resolveCollision exampleDynamicBody exampleStaticBody (TPE_vec4 384 0 0 0)
          (TPE_vec4 512 0 0 0) 10 300).2.velocity = exampleStaticBody.velocity) ∧
    (([exampleStaticBody].getD 0 TPE_emptyBody).mass = TPE_INFINITY →
      (TPE_worldApplyGravityDown [exampleStaticBody] 5).getD 0 TPE_emptyBody =
        [exampleStaticBody].getD 0 TPE_emptyBody) :=
  staticBody_invariant_amended exampleStaticBody exampleDynamicBody (TPE_vec4 384 0 0 0)
    (TPE_vec4 512 0 0 0) 10 300 5 [exampleStaticBody] 0 (by decide)

/-- C5 (counterexample): at the angle 64 the fixed-point
`sin²/F + cos²/F` misses `F` by 11, which exceeds the claimed bound of
about 5. -/
theorem sinCosSquares_counterexample :
    TPE_abs (Int.tdiv (TPE_sin 64 * TPE_sin 64) TPE_FRACTIONS_PER_UNIT +
        Int.tdiv (TPE_cos 64 * TPE_cos 64) TPE_FRACTIONS_PER_UNIT -
        TPE_FRACTIONS_PER_UNIT) = 11 ∧
    ¬ (TPE_abs (Int.tdiv (TPE_sin 64 * TPE_sin 64) TPE_FRACTIONS_PER_UNIT +
        Int.tdiv (TPE_cos 64 * TPE_cos 64) TPE_FRACTIONS_PER_UNIT -
        TPE_FRACTIONS_PER_UNIT) ≤ 5) := by
  exact ⟨by decide, by decide⟩

set_option maxRecDepth 100000 in
set_option maxHeartbeats 4000000 in
/-- C5 (amended): for every angle `a` in `[0, F)`,
`|sin(a)²/F + cos(a)²/F − F| ≤ 11` (the bound 11 is attained, so this is
tight; it is about `F/46`, not `F/100`). -/
theorem sinCosSquares_amended (a : Int) (h0 : 0 ≤ a) (h1 : a < TPE_FRACTIONS_PER_UNIT) :
    TPE_abs (Int.tdiv (TPE_sin a * TPE_sin a) TPE_FRACTIONS_PER_UNIT +
        Int.tdiv (TPE_cos a * TPE_cos a) TPE_FRACTIONS_PER_UNIT -
        TPE_FRACTIONS_PER_UNIT) ≤ 11 := by
  have key : ∀ n : Nat, n < 512 →
      TPE_abs (Int.tdiv (TPE_sin n * TPE_sin n) TPE_FRACTIONS_PER_UNIT +
        Int.tdiv (TPE_cos n * TPE_cos n) TPE_FRACTIONS_PER_UNIT -
        TPE_FRACTIONS_PER_UNIT) ≤ 11 := by decide
  have ha : a = ((a.toNat : Nat) : Int) := (Int.toNat_of_nonneg h0).symm
  rw [ha]
  refine key a.toNat ?_
  have hF : (TPE_FRACTIONS_PER_UNIT : Int) = 512 := by decide
  omega

/-- C5 (witness): the amended bound at the angle 100. -/
theorem sinCosSquares_amended_witness :
    TPE_abs (Int.tdiv (TPE_sin 100 * TPE_sin 100) TPE_FRACTIONS_PER_UNIT +
        Int.tdiv (TPE_cos 100 * TPE_cos 100) TPE_FRACTIONS_PER_UNIT -
        TPE_FRACTIONS_PER_UNIT) ≤ 11 :=
  sinCosSquares_amended 100 (by decide) (by decide)

/-- C6: for every 32-bit `x ≥ 0`, `TPE_sqrt x` is exactly the integer square
root `⌊√x⌋` (`Int.sqrt`), and for every `-2^31 < x < 0` it returns
`-TPE_sqrt (-x)`. -/
theorem sqrt_returns_floor (x : Int) :
    (0 ≤ x → x < 2 ^ 31 → TPE_sqrt x = Int.sqrt x) ∧
    (-(2 ^ 31) < x → x < 0 → TPE_sqrt x = -TPE_sqrt (-x)) := by
  constructor
  · intro h0 h1
    unfold TPE_sqrt Int.sqrt
    rw [if_neg (by omega)]
    rw [TPE_sqrtNat_correct x.toNat (by omega)]
  · intro hlo hhi
    unfold TPE_sqrt
    rw [if_pos hhi, if_neg (by omega : ¬ -x < 0)]
    ring

/-- C6 (witness): the square-root theorem at `x = 1000` and `x = -9`. -/
theorem sqrt_returns_floor_witness :
    TPE_sqrt 1000 = Int.sqrt 1000 ∧ TPE_sqrt (-9) = -TPE_sqrt 9 :=
  ⟨(sqrt_returns_floor 1000).1 (by norm_num) (by norm_num),
   (sqrt_returns_floor (-9)).2 (by norm_num) (by norm_num)⟩

/-- C7: a world step is a deterministic pure function of the world state:
bit-identical world states produce bit-identical states under
`TPE_worldStepBodies` and under `TPE_worldResolveCollisionNaive` (which
iterates the body pairs in ascending index order `i < j`); the embedded
step functions depend on nothing outside the body list. -/
theorem worldStep_deterministic (w1 w2 : List TPE_Body) (h : w1 = w2) :
    TPE_worldStepBodies w1 = TPE_worldStepBodies w2 ∧
    TPE_worldResolveCollisionNaive w1 = TPE_worldResolveCollisionNaive w2 := by
  subst h
  exact ⟨rfl, rfl⟩

/-- C7 (witness): determinism at a concrete two-body world. -/
theorem worldStep_deterministic_witness :
    TPE_worldStepBodies [exampleDynamicBody, exampleStaticBody] =
      TPE_worldStepBodies [exampleDynamicBody, exampleStaticBody] ∧
    TPE_worldResolveCollisionNaive [exampleDynamicBody, exampleStaticBody] =
      TPE_worldResolveCollisionNaive [exampleDynamicBody, exampleStaticBody] :=
  worldStep_deterministic [exampleDynamicBody, exampleStaticBody]
    [exampleDynamicBody, exampleStaticBody] rfl

/-- C8: `TPE_worldApplyGravityDown` subtracts exactly `g` from the `y`
velocity of every body whose mass is not `TPE_INFINITY`, leaves bodies with
mass `TPE_INFINITY` completely untouched, and changes no other field of any
body. -/
theorem worldApplyGravityDown_effect (bodies : List TPE_Body) (g : Int) (i : Nat)
    (h : i < bodies.length) :
    (TPE_worldApplyGravityDown bodies g).length = bodies.length ∧
    ((bodies.getD i TPE_emptyBody).mass = TPE_INFINITY →
      (TPE_worldApplyGravityDown bodies g).getD i TPE_emptyBody =
        bodies.getD i TPE_emptyBody) ∧
    ((bodies.getD i TPE_emptyBody).mass ≠ TPE_INFINITY →
      let b := bodies.getD i TPE_emptyBody
      let b' := (TPE_worldApplyGravityDown bodies g).getD i TPE_emptyBody
      b'.velocity.y = b.velocity.y - g ∧ b'.velocity.x = b.velocity.x ∧
      b'.velocity.z = b.velocity.z ∧ b'.velocity.w = b.velocity.w ∧
      b'.position = b.position ∧ b'.rotation = b.rotation ∧ b'.mass = b.mass ∧
      b'.shape = b.shape ∧ b'.shapeParams0 = b.shapeParams0 ∧
      b'.shapeParams1 = b.shapeParams1 ∧ b'.shapeParams2 = b.shapeParams2 ∧
      b'.flags = b.flags ∧ b'.boundingSphereRadius = b.boundingSphereRadius ∧
      b'.antiVibration = b.antiVibration) := by
  unfold TPE_worldApplyGravityDown
  have hg : ∀ l : List TPE_Body, ∀ f : TPE_Body → TPE_Body, i < l.length →
      (l.map f).getD i TPE_emptyBody = f (l.getD i TPE_emptyBody) := by
    intro l f hl
    rw [List.getD_eq_getElem l TPE_emptyBody hl,
      List.getD_eq_getElem (l.map f) TPE_emptyBody (by simpa using hl),
      List.getElem_map]
  rw [List.length_map, hg bodies _ h]
  refine ⟨rfl, fun hmass => ?_, fun hmass => ?_⟩
  · rw [if_neg (not_ne_iff.mpr hmass)]
  · rw [if_pos hmass]
    exact ⟨rfl, rfl, rfl, rfl, rfl, rfl, rfl, rfl, rfl, rfl, rfl, rfl, rfl, rfl⟩

/-- C8 (witness): gravity applied to a concrete two-body world. -/
theorem worldApplyGravityDown_effect_witness :
    (TPE_worldApplyGravityDown [exampleDynamicBody, exampleStaticBody] 5).length = 2 ∧
    (TPE_worldApplyGravityDown [exampleDynamicBody, exampleStaticBody] 5).getD 1
        TPE_emptyBody = exampleStaticBody ∧
    ((TPE_worldApplyGravityDown [exampleDynamicBody, exampleStaticBody] 5).getD 0
        TPE_emptyBody).velocity.y = exampleDynamicBody.velocity.y - 5 := by
  have h0 := worldApplyGravityDown_effect [exampleDynamicBody, exampleStaticBody] 5 0
    (by decide)
  have h1 := worldApplyGravityDown_effect [exampleDynamicBody, exampleStaticBody] 5 1
    (by decide)
  exact ⟨h0.1, h1.2.1 (by decide), (h0.2.2 (by decide)).1⟩

/-- C9: normalizing the zero vector yields exactly `(F,0,0)`. -/
theorem vec3Normalize_zero :
    TPE_vec3Normalize (TPE_vec4 0 0 0 0) = TPE_vec4 TPE_FRACTIONS_PER_UNIT 0 0 0 := by
  decide

/-- C10: with equal masses `0 < m ≤ 30000`, distinct velocities of
magnitude at most 30000 and elasticity `F`, `TPE_getVelocitiesAfterCollision`
exactly swaps the two velocities. -/
theorem getVelocitiesAfterCollision_equalMasses_swap (m v1 v2 : Int)
    (hm0 : 0 < m) (hm : m ≤ 30000) (h1 : TPE_abs v1 ≤ 30000) (h2 : TPE_abs v2 ≤ 30000)
    (hne : v1 ≠ v2) :
    TPE_getVelocitiesAfterCollision v1 v2 m m TPE_FRACTIONS_PER_UNIT = (v2, v1) := by
  have h1' : v1 ≤ 30000 := by unfold TPE_abs at h1; split_ifs at h1 <;> omega
  have h2' : v2 ≤ 30000 := by unfold TPE_abs at h2; split_ifs at h2 <;> omega
  have hod : ¬ (m > 30000 ∨ v1 > 30000 ∨ m > 30000 ∨ v2 > 30000) := by omega
  have hmm : m + m ≠ 0 := by omega
  have hvv : ¬ (v2 - v1 = 0) := by omega
  unfold TPE_getVelocitiesAfterCollision TPE_nonZero
  simp only [if_neg hod, if_neg hmm, if_neg hvv, add_zero]
  unfold TPE_FRACTIONS_PER_UNIT
  rw [Int.mul_tdiv_cancel_left m (by norm_num : (512:Int) ≠ 0)]
  have e1 : m * (v2 - v1) + (m * v1 + m * v2) = (m + m) * v2 := by ring
  have e2 : m * -1 * (v2 - v1) + (m * v1 + m * v2) = (m + m) * v1 := by ring
  rw [e1, e2, Int.mul_tdiv_cancel_left v2 hmm, Int.mul_tdiv_cancel_left v1 hmm]

/-- C10 (witness): the swap at `m = 100`, `v1 = 5`, `v2 = -7`. -/
theorem getVelocitiesAfterCollision_swap_witness :
    TPE_getVelocitiesAfterCollision 5 (-7) 100 100 TPE_FRACTIONS_PER_UNIT = (-7, 5) :=
  getVelocitiesAfterCollision_equalMasses_swap 100 5 (-7) (by decide) (by decide)
    (by decide) (by decide) (by decide)
